import Mathlib

/-!
Shallow embedding of the `ais-princess` AIS binary decoding core, and proofs
of the specification claims about it.

Embedded source files:
* `src/dac-fid-decoder/src/ais_binary/bitreader.py` (BitReader, payload dearmoring)
* `src/dac-fid-decoder/src/ais_binary/dac001.py`, `dac200.py`, `dac367.py` (region decoders)
* `src/dac-fid-decoder/src/ais_binary/__init__.py` (`decode_binary_payload`)
* `src/db/decoder.py` (`MultiPartBuffer`)

Modelling conventions:
* Python `bytes` is `List Nat` (one entry per byte).
* Python `dict` results are association lists; insertion (`d[k] = v` and
  `dict.update`) replaces an existing binding in place and otherwise appends,
  matching CPython's ordered-dict semantics on its duplicate-free dicts.
* Python floats are modelled exactly as rationals: every float this code
  produces arises from integer arithmetic and division/multiplication by small
  constants, and the claims only compare such exact values.
* Python exceptions are modelled with `Except PyErr`; a `try/except` in the
  source becomes an explicit `match` on the `Except` value.
* `time.time()` has no counterpart in a shallow embedding, so `MultiPartBuffer.add`
  takes the current time `now : ℚ` as an explicit argument; the source reads the
  clock exactly once per call, at the point where the model's argument is used.
-/

namespace AisSpec

/-! ## bitreader.py -/

/-- Python run-time values appearing in decoder results: ints, floats
(modelled exactly as rationals), strings, booleans, lists, and nested dicts. -/
inductive Value where
  | vInt  : Int → Value
  | vRat  : ℚ → Value
  | vStr  : String → Value
  | vBool : Bool → Value
  | vList : List Value → Value
  | vDict : List (String × Value) → Value

/-- A Python dict with string keys, as an insertion-ordered association list. -/
abbrev Dict := List (String × Value)

/-- Association-list lookup (Python `d[k]` / `d.get(k)`); returns the first
binding, which is the only one since Python dicts never hold duplicate keys. -/
def alook {κ α : Type} [DecidableEq κ] (l : List (κ × α)) (k : κ) : Option α :=
  match l with
  | [] => none
  | (k', v) :: rest => if k' = k then some v else alook rest k

/-- Python `d[k] = v`: replace the (unique) binding in place if the key is
present, otherwise append the new binding at the end. -/
def aset {κ α : Type} [DecidableEq κ] (k : κ) (v : α) (l : List (κ × α)) : List (κ × α) :=
  match l with
  | [] => [(k, v)]
  | p :: rest => if p.1 = k then (k, v) :: rest else p :: aset k v rest

/-- Python `del d[k]` (the source only deletes keys that are present). -/
def aerase {κ α : Type} [DecidableEq κ] (k : κ) (l : List (κ × α)) : List (κ × α) :=
  l.filter (fun p => decide (p.1 ≠ k))

/-- Python `d1.update(d2)`: fold the bindings of `d2` into `d1` in order. -/
def dictUpdate (d₁ d₂ : Dict) : Dict :=
  d₂.foldl (fun acc p => aset p.1 p.2 acc) d₁

/-- Python exceptions raised (and caught) by the decoding core. -/
inductive PyErr where
  | valueError : String → PyErr
  | keyError   : PyErr

/-- Loop body of `BitReader.get_uint`: assemble `width` bits starting at bit
`offset` (MSB first, spanning byte boundaries), reading absent bytes as 0.
The source tests `data[byte_idx] & (1 << bit_idx)` and ors `1 << (width-1-i)`
into the result. -/
def extractUint (data : List Nat) (offset width : Nat) : Nat :=
  (List.range width).foldl
    (fun result i =>
      let bitPos := offset + i
      let byteIdx := bitPos / 8
      let bitIdx := 7 - bitPos % 8
      if data.getD byteIdx 0 &&& (1 <<< bitIdx) ≠ 0 then
        result ||| (1 <<< (width - 1 - i))
      else result)
    0

/-- `BitReader.get_uint`: `width == 0` returns 0 with no bounds check;
a read past `num_bits = len(data)*8` raises `ValueError`. -/
def get_uint (data : List Nat) (offset width : Nat) : Except PyErr Nat :=
  if width = 0 then .ok 0
  else if offset + width > 8 * data.length then
    .error (.valueError ("Bit range [" ++ toString offset ++ ":" ++ toString (offset + width)
      ++ "] exceeds data length (" ++ toString (8 * data.length) ++ " bits)"))
  else .ok (extractUint data offset width)

/-- `BitReader.get_int`: two's-complement reinterpretation of `get_uint`
(the source subtracts `1 << width` when the sign bit is set; all call sites
use `width ≥ 1`). -/
def get_int (data : List Nat) (offset width : Nat) : Except PyErr Int := do
  let val ← get_uint data offset width
  if val &&& (1 <<< (width - 1)) ≠ 0 then
    pure ((val : Int) - ((1 <<< width : Nat) : Int))
  else
    pure (val : Int)

/-- `BitReader.get_bool`. -/
def get_bool (data : List Nat) (offset : Nat) : Except PyErr Bool := do
  let val ← get_uint data offset 1
  pure (val == 1)

/-- One character of the AIS six-bit alphabet: values 0–31 map to ASCII
64+value, values 32–63 map directly. -/
def sixBitChar (val : Nat) : Char :=
  if val < 32 then Char.ofNat (val + 64) else Char.ofNat val

/-- Python `''.join(chars).rstrip('@ ')`: drop every trailing `'@'` or space. -/
def pyRstrip (l : List Char) : List Char :=
  (l.reverse.dropWhile (fun c => decide (c = '@' ∨ c = ' '))).reverse

/-- `BitReader.get_string`: `width` must be a multiple of 6; decode `width/6`
six-bit characters and strip trailing `'@'` and spaces. -/
def get_string (data : List Nat) (offset width : Nat) : Except PyErr String := do
  if width % 6 ≠ 0 then
    throw (.valueError ("String width must be multiple of 6, got " ++ toString width))
  else do
    let chars ← (List.range (width / 6)).mapM (fun i => do
      let val ← get_uint data (offset + i * 6) 6
      pure (sixBitChar val))
    pure (String.mk (pyRstrip chars))

/-- `BitReader.get_position`: 25-bit signed longitude, 24-bit signed latitude,
each divided by 60000.0. -/
def get_position (data : List Nat) (offset : Nat) : Except PyErr (ℚ × ℚ) := do
  let lon ← get_int data offset 25
  let lat ← get_int data (offset + 25) 24
  pure ((lon : ℚ) / 60000, (lat : ℚ) / 60000)

/-- `BitReader.get_position_28`: 28-bit signed longitude, 27-bit signed
latitude, each divided by 600000.0. -/
def get_position_28 (data : List Nat) (offset : Nat) : Except PyErr (ℚ × ℚ) := do
  let lon ← get_int data offset 28
  let lat ← get_int data (offset + 28) 27
  pure ((lon : ℚ) / 600000, (lat : ℚ) / 600000)

/-- Per-character loop body of `bits_from_ais_payload`: `val = ord(char) - 48`,
minus 8 when `val > 40`, then the six bits of `val` MSB first. Python's `>>`
and `& 1` on a (possibly negative) int are floor division and Euclidean
remainder. -/
def armorBits (c : Char) : List Nat :=
  let val : Int := (c.toNat : Int) - 48
  let val := if val > 40 then val - 8 else val
  (List.range 6).map (fun k => ((val.fdiv (2 ^ (5 - k))) % 2).toNat)

/-- Byte-packing loop of `bits_from_ais_payload`: take 8 bits at a time,
assemble them MSB first (`byte = (byte << 1) | bit`), and left-shift a final
partial byte to fill it. -/
def packBits : List Nat → List Nat
  | [] => []
  | b :: rest =>
    let chunk := b :: rest.take 7
    let byte := chunk.foldl (fun acc bit => (acc <<< 1) ||| bit) 0
    (byte <<< (8 - chunk.length)) :: packBits (rest.drop 7)
termination_by l => l.length
decreasing_by simp; omega

/-- `bits_from_ais_payload`: dearmor a payload string into bytes, dropping the
final `pad` bits (the source slices `bits[:-pad]` only when `pad` is nonzero). -/
def bits_from_ais_payload (payload : String) (pad : Nat) : List Nat :=
  let bits := payload.data.flatMap armorBits
  let bits := if pad ≠ 0 then bits.take (bits.length - pad) else bits
  packBits bits

/-- One lowercase hexadecimal digit. -/
def hexDigit (n : Nat) : Char :=
  if n < 10 then Char.ofNat (48 + n) else Char.ofNat (87 + n)

/-- Python `bytes.hex()`: two lowercase hex digits per byte. -/
def bytesHex (data : List Nat) : String :=
  String.mk (data.flatMap (fun b => [hexDigit (b / 16 % 16), hexDigit (b % 16)]))

/-- Digits of `n` in base 16, most significant first (`n = 0` gives `"0"`). -/
def natHexAux (n : Nat) : List Char :=
  if n = 0 then [] else natHexAux (n / 16) ++ [hexDigit (n % 16)]
termination_by n
decreasing_by exact Nat.div_lt_self (Nat.pos_of_ne_zero (by assumption)) (by norm_num)

/-- Python `hex(n)` for `n ≥ 0`: `"0x"` followed by lowercase hex digits. -/
def pyHex (n : Nat) : String :=
  "0x" ++ String.mk (if n = 0 then ['0'] else natHexAux n)


/-! ## Region decoders: shared machinery -/

/-- Python `str(e)` for the exceptions this code raises. -/
def PyErr.msg : PyErr → String
  | .valueError s => s
  | .keyError => "KeyError"

/-- Evaluation of a Python dict literal whose value expressions may raise:
evaluate left to right, propagating the first exception. -/
def mkDictE : List (String × Except PyErr Value) → Except PyErr Dict
  | [] => .ok []
  | (k, ev) :: ps =>
    match ev with
    | .error e => .error e
    | .ok v =>
      match mkDictE ps with
      | .error e => .error e
      | .ok d => .ok ((k, v) :: d)

/-- A `get_uint` field as a Python int value. -/
def uintF (data : List Nat) (o w : Nat) : Except PyErr Value :=
  (get_uint data o w).map (fun u => .vInt u)

/-- A `get_int` field as a Python int value. -/
def intF (data : List Nat) (o w : Nat) : Except PyErr Value :=
  (get_int data o w).map (fun i => .vInt i)

/-- A `get_bool` field. -/
def boolF (data : List Nat) (o : Nat) : Except PyErr Value :=
  (get_bool data o).map (fun b => .vBool b)

/-- A `get_string` field. -/
def strF (data : List Nat) (o w : Nat) : Except PyErr Value :=
  (get_string data o w).map (fun s => .vStr s)

/-- The `try: return decoder(data) / except Exception as e: ...` wrapper shared
by the three DAC dispatchers. -/
def runDecoder (fid : Int) (data : List Nat) (dec : List Nat → Except PyErr Dict) : Dict :=
  match dec data with
  | .ok d => d
  | .error e => [("error", .vStr e.msg), ("fid", .vInt fid), ("raw", .vStr (bytesHex data))]

/-! ## dac001.py -/

/-- `decode_001_11` (Met/Hydro, IMO 236; reversed lat/lon order). -/
def decode_001_11 (data : List Nat) : Except PyErr Dict := do
  let lat ← get_int data 0 24
  let lon ← get_int data 24 25
  mkDictE [
    ("fid", pure (.vInt 11)),
    ("description", pure (.vStr ("Met/Hydro (IMO 236, deprecated)"))),
    ("latitude", pure (.vRat ((lat : ℚ) / 60000))),
    ("longitude", pure (.vRat ((lon : ℚ) / 60000))),
    ("day", uintF data 49 5),
    ("hour", uintF data 54 5),
    ("minute", uintF data 59 6),
    ("wind_ave_kts", uintF data 65 7),
    ("wind_gust_kts", uintF data 72 7),
    ("wind_dir", uintF data 79 9),
    ("wind_gust_dir", uintF data 88 9),
    ("air_temp_c", (get_uint data 97 11).map (fun u => .vRat ((u : ℚ) / 10 - 60))),
    ("rel_humidity_pct", uintF data 108 7),
    ("dew_point_c", (get_uint data 115 10).map (fun u => .vRat ((u : ℚ) / 10 - 20))),
    ("air_pressure_hpa", (get_uint data 125 9).map (fun u => .vInt (u + 800))),
    ("air_pressure_trend", uintF data 134 2),
    ("horz_visibility_nm", (get_uint data 136 8).map (fun u => .vRat ((u : ℚ) / 10))),
    ("water_level_m", (get_uint data 144 9).map (fun u => .vRat ((u : ℚ) / 10 - 10))),
    ("water_level_trend", uintF data 153 2),
    ("surf_cur_speed_kts", (get_uint data 155 8).map (fun u => .vRat ((u : ℚ) / 10))),
    ("surf_cur_dir", uintF data 163 9),
    ("cur_speed_2_kts", (get_uint data 172 8).map (fun u => .vRat ((u : ℚ) / 10))),
    ("cur_dir_2", uintF data 180 9),
    ("cur_depth_2_m", uintF data 189 5),
    ("cur_speed_3_kts", (get_uint data 194 8).map (fun u => .vRat ((u : ℚ) / 10))),
    ("cur_dir_3", uintF data 202 9),
    ("cur_depth_3_m", uintF data 211 5),
    ("wave_height_m", (get_uint data 216 8).map (fun u => .vRat ((u : ℚ) / 10))),
    ("wave_period_s", uintF data 224 6),
    ("wave_dir", uintF data 230 9),
    ("swell_height_m", (get_uint data 239 8).map (fun u => .vRat ((u : ℚ) / 10))),
    ("swell_period_s", uintF data 247 6),
    ("swell_dir", uintF data 253 9),
    ("sea_state_beaufort", uintF data 262 4),
    ("water_temp_c", (get_uint data 266 10).map (fun u => .vRat ((u : ℚ) / 10 - 10))),
    ("precip_type", uintF data 276 3),
    ("salinity_ppt", (get_uint data 279 9).map (fun u => .vRat ((u : ℚ) / 10))),
    ("ice", uintF data 288 2)]

/-- `decode_001_13` (Fairway Closed). -/
def decode_001_13 (data : List Nat) : Except PyErr Dict :=
  mkDictE [
    ("fid", pure (.vInt 13)),
    ("description", pure (.vStr ("Fairway Closed"))),
    ("reason", strF data 0 120),
    ("location_from", strF data 120 120),
    ("location_to", strF data 240 120),
    ("radius", uintF data 360 10),
    ("units", uintF data 370 2),
    ("day_from", uintF data 372 5),
    ("month_from", uintF data 377 4),
    ("hour_from", uintF data 381 5),
    ("minute_from", uintF data 386 6),
    ("day_to", uintF data 392 5),
    ("month_to", uintF data 397 4),
    ("hour_to", uintF data 401 5),
    ("minute_to", uintF data 406 6)]

/-- `decode_001_15` (Extended Ship Static: Air Draught). -/
def decode_001_15 (data : List Nat) : Except PyErr Dict :=
  mkDictE [
    ("fid", pure (.vInt 15)),
    ("description", pure (.vStr ("Extended Ship Static (Air Draught)"))),
    ("air_draught_m", (get_uint data 0 11).map (fun u => .vRat ((u : ℚ) / 10)))]

/-- `decode_001_16` (Number of Persons on Board). -/
def decode_001_16 (data : List Nat) : Except PyErr Dict :=
  mkDictE [
    ("fid", pure (.vInt 16)),
    ("description", pure (.vStr ("Number of Persons on Board"))),
    ("persons", uintF data 0 13)]

/-- `decode_001_17` (VTS Generated Targets; up to 4 targets of 120 bits,
lat/lon in reverse order). -/
def decode_001_17 (data : List Nat) : Except PyErr Dict := do
  let numBits := 8 * data.length
  let numTargets := numBits / 120
  let targets ← (List.range (min numTargets 4)).mapM (fun i => do
    let start := i * 120
    let lat ← get_int data (start + 48) 24
    let lon ← get_int data (start + 72) 25
    let d ← mkDictE [
      ("type", uintF data start 2),
      ("id", strF data (start + 2) 42),
      ("latitude", pure (.vRat ((lat : ℚ) / 60000))),
      ("longitude", pure (.vRat ((lon : ℚ) / 60000))),
      ("cog", uintF data (start + 97) 9),
      ("timestamp", uintF data (start + 106) 6),
      ("sog_kts", uintF data (start + 112) 8)]
    pure (Value.vDict d))
  mkDictE [
    ("fid", pure (.vInt 17)),
    ("description", pure (.vStr ("VTS Generated Targets"))),
    ("targets", pure (.vList targets))]

/-- `decode_001_19` (Marine Traffic Signal). -/
def decode_001_19 (data : List Nat) : Except PyErr Dict := do
  let pos ← get_position data 130
  mkDictE [
    ("fid", pure (.vInt 19)),
    ("description", pure (.vStr ("Marine Traffic Signal"))),
    ("link_id", uintF data 0 10),
    ("name", strF data 10 120),
    ("longitude", pure (.vRat pos.1)),
    ("latitude", pure (.vRat pos.2)),
    ("status", uintF data 179 2),
    ("signal", uintF data 181 5),
    ("utc_hour_next", uintF data 186 5),
    ("utc_min_next", uintF data 191 6),
    ("next_signal", uintF data 197 5)]

/-- `decode_001_21` (Weather Observation Report; AIS or WMO sub-format chosen
by the leading type bit). -/
def decode_001_21 (data : List Nat) : Except PyErr Dict := do
  let typeWx ← get_bool data 0
  if !typeWx then do
    let pos ← get_position data 121
    mkDictE [
      ("fid", pure (.vInt 21)),
      ("description", pure (.vStr ("Weather Observation (AIS format)"))),
      ("type", pure (.vInt 0)),
      ("location", strF data 1 120),
      ("longitude", pure (.vRat pos.1)),
      ("latitude", pure (.vRat pos.2)),
      ("day", uintF data 170 5),
      ("hour", uintF data 175 5),
      ("minute", uintF data 180 6),
      ("wx_code", uintF data 186 4),
      ("horz_visibility_nm", (get_uint data 190 8).map (fun u => .vRat ((u : ℚ) / 10))),
      ("humidity_pct", uintF data 198 7),
      ("wind_speed_kts", uintF data 205 7),
      ("wind_dir", uintF data 212 9),
      ("air_pressure_hpa", uintF data 221 9),
      ("air_pressure_trend", uintF data 230 4),
      ("air_temp_c", (get_int data 234 11).map (fun i => .vRat ((i : ℚ) / 10))),
      ("water_temp_c", (get_uint data 245 10).map (fun u => .vRat ((u : ℚ) / 10 - 10))),
      ("wave_period_s", uintF data 255 6),
      ("wave_height_m", (get_uint data 261 8).map (fun u => .vRat ((u : ℚ) / 10))),
      ("wave_dir", uintF data 269 9),
      ("swell_height_m", (get_uint data 278 8).map (fun u => .vRat ((u : ℚ) / 10))),
      ("swell_dir", uintF data 286 9),
      ("swell_period_s", uintF data 295 6)]
  else do
    let lon ← (get_uint data 1 16).map (fun u => (u : ℚ) / 100 - 180)
    let lat ← (get_uint data 17 15).map (fun u => (u : ℚ) / 100 - 90)
    mkDictE [
      ("fid", pure (.vInt 21)),
      ("description", pure (.vStr ("Weather Observation (WMO format)"))),
      ("type", pure (.vInt 1)),
      ("longitude", pure (.vRat lon)),
      ("latitude", pure (.vRat lat)),
      ("month", uintF data 32 4),
      ("day", uintF data 36 6),
      ("hour", uintF data 42 5),
      ("minute", (get_uint data 47 3).map (fun u => .vInt (u * 10))),
      ("cog", (get_uint data 50 7).map (fun u => .vInt (u * 5))),
      ("sog_kts", (get_uint data 57 5).map (fun u => .vRat ((u : ℚ) * 0.5))),
      ("heading", (get_uint data 62 7).map (fun u => .vInt (u * 5))),
      ("pressure_hpa", (get_uint data 69 11).map (fun u => .vRat ((u : ℚ) / 10 + 900))),
      ("rel_pressure_hpa", (get_uint data 80 10).map (fun u => .vRat ((u : ℚ) / 10 - 50))),
      ("pressure_trend", uintF data 90 4),
      ("wind_dir", (get_uint data 94 7).map (fun u => .vInt (u * 5))),
      ("wind_speed_ms", (get_uint data 101 8).map (fun u => .vRat ((u : ℚ) * 0.5))),
      ("wind_dir_rel", (get_uint data 109 7).map (fun u => .vInt (u * 5))),
      ("wind_speed_rel_ms", (get_uint data 116 8).map (fun u => .vRat ((u : ℚ) * 0.5))),
      ("wind_gust_speed_ms", (get_uint data 124 8).map (fun u => .vRat ((u : ℚ) * 0.5))),
      ("wind_gust_dir", (get_uint data 132 7).map (fun u => .vInt (u * 5))),
      ("air_temp_raw", uintF data 139 10),
      ("humidity_pct", uintF data 149 7),
      ("water_temp_raw", uintF data 156 9),
      ("wx_current", uintF data 171 9),
      ("wx_past_1", uintF data 180 5),
      ("wx_past_2", uintF data 185 5),
      ("cloud_total_pct", (get_uint data 190 4).map (fun u => .vInt (u * 10))),
      ("cloud_low", uintF data 194 4),
      ("cloud_low_type", uintF data 198 6),
      ("cloud_middle_type", uintF data 204 6),
      ("cloud_high_type", uintF data 210 6),
      ("wave_period_s", uintF data 223 5),
      ("wave_height_m", (get_uint data 228 6).map (fun u => .vRat ((u : ℚ) * 0.5))),
      ("swell_dir", (get_uint data 234 6).map (fun u => .vInt (u * 10))),
      ("swell_period_s", uintF data 240 5),
      ("swell_height_m", (get_uint data 245 6).map (fun u => .vRat ((u : ℚ) * 0.5))),
      ("ice_thickness_m", (get_uint data 268 7).map (fun u => .vRat ((u : ℚ) / 100))),
      ("ice_accretion", uintF data 275 3),
      ("ice_accretion_cause", uintF data 278 3)]

/-- `decode_001_22` (Area Notice header; sub-areas kept raw by the source). -/
def decode_001_22 (data : List Nat) : Except PyErr Dict := do
  let base ← mkDictE [
    ("fid", pure (.vInt 22)),
    ("description", pure (.vStr ("Area Notice"))),
    ("link_id", uintF data 0 10),
    ("notice_type", uintF data 10 7),
    ("month", uintF data 17 4),
    ("day", uintF data 21 5),
    ("hour", uintF data 26 5),
    ("minute", uintF data 31 6),
    ("duration_min", uintF data 37 18),
    ("sub_areas", pure (.vList []))]
  let numBits := 8 * data.length
  if numBits > 87 then
    let subAreaBits := numBits - 87
    let numSubAreas := subAreaBits / 87
    pure (aset ("sub_area_data_hex") (.vStr (bytesHex (data.drop 11)))
      (aset ("num_sub_areas") (.vInt numSubAreas) base))
  else
    pure base

/-- `decode_001_24` (Extended Ship Static and Voyage; the 26-entry SOLAS
status array is computed before the dict literal, as in the source). -/
def decode_001_24 (data : List Nat) : Except PyErr Dict := do
  let solas ← (List.range 26).mapM (fun i => get_uint data (113 + i * 2) 2)
  mkDictE [
    ("fid", pure (.vInt 24)),
    ("description", pure (.vStr ("Extended Ship Static and Voyage"))),
    ("link_id", uintF data 0 10),
    ("air_draught_m", (get_uint data 10 13).map (fun u => .vRat ((u : ℚ) / 10))),
    ("last_port", strF data 23 30),
    ("next_port_1", strF data 53 30),
    ("next_port_2", strF data 83 30),
    ("solas_status", pure (.vList (solas.map (fun u => .vInt u)))),
    ("ice_class", uintF data 165 4),
    ("shaft_power_hp", uintF data 169 18),
    ("vhf_channel", uintF data 187 12),
    ("lloyds_ship_type", strF data 199 42),
    ("gross_tonnage", uintF data 241 18),
    ("laden_ballast", uintF data 259 2),
    ("heavy_oil", uintF data 261 2),
    ("light_oil", uintF data 263 2),
    ("diesel", uintF data 265 2),
    ("bunker_oil_tonnes", uintF data 267 14),
    ("persons", uintF data 281 13)]

/-- `decode_001_27` (Route Information; up to 16 waypoints of 55 bits starting
at bit 61, with high-precision positions). Python's `(num_bits - 61) // 55`
floors a possibly negative value, hence the `Int.fdiv`. -/
def decode_001_27 (data : List Nat) : Except PyErr Dict := do
  let base ← mkDictE [
    ("fid", pure (.vInt 27)),
    ("description", pure (.vStr ("Route Information"))),
    ("link_id", uintF data 0 10),
    ("sender_type", uintF data 10 3),
    ("route_type", uintF data 13 5),
    ("month", uintF data 18 4),
    ("day", uintF data 22 5),
    ("hour", uintF data 27 5),
    ("minute", uintF data 32 6),
    ("duration_min", uintF data 38 18),
    ("waypoints", pure (.vList []))]
  let numBits : Int := 8 * data.length
  let numWaypoints := Int.fdiv (numBits - 61) 55
  let wps ← (List.range (min numWaypoints 16).toNat).mapM (fun i => do
    let start := 61 + i * 55
    let lon ← get_int data start 28
    let lat ← get_int data (start + 28) 27
    let d ← mkDictE [
      ("longitude", pure (.vRat ((lon : ℚ) / 600000))),
      ("latitude", pure (.vRat ((lat : ℚ) / 600000)))]
    pure (Value.vDict d))
  pure (aset ("waypoints") (.vList wps) base)

/-- `decode_001_29` (Text Description: 6-bit text filling all bits after a
10-bit link id). For payloads of under 11 bits Python computes a negative
`text_bits` and `get_string` then yields `""`; the truncated Nat subtraction
below yields width 0 and the same `""`. -/
def decode_001_29 (data : List Nat) : Except PyErr Dict := do
  let numBits := 8 * data.length
  let textBits := (numBits - 10) / 6 * 6
  mkDictE [
    ("fid", pure (.vInt 29)),
    ("description", pure (.vStr ("Text Description"))),
    ("link_id", uintF data 0 10),
    ("text", strF data 10 textBits)]

/-- `decode_001_31` (Met/Hydro, IMO 289). -/
def decode_001_31 (data : List Nat) : Except PyErr Dict := do
  let pos ← get_position data 0
  mkDictE [
    ("fid", pure (.vInt 31)),
    ("description", pure (.vStr ("Met/Hydro (IMO 289)"))),
    ("longitude", pure (.vRat pos.1)),
    ("latitude", pure (.vRat pos.2)),
    ("position_accuracy", boolF data 49),
    ("day", uintF data 50 5),
    ("hour", uintF data 55 5),
    ("minute", uintF data 60 6),
    ("wind_ave_kts", uintF data 66 7),
    ("wind_gust_kts", uintF data 73 7),
    ("wind_dir", uintF data 80 9),
    ("wind_gust_dir", uintF data 89 9),
    ("air_temp_c", (get_int data 98 11).map (fun i => .vRat ((i : ℚ) / 10))),
    ("rel_humidity_pct", uintF data 109 7),
    ("dew_point_c", (get_int data 116 10).map (fun i => .vRat ((i : ℚ) / 10))),
    ("air_pressure_hpa", (get_uint data 126 9).map (fun u => .vRat (((u + 800 : Nat) : ℚ) / 100))),
    ("air_pressure_trend", uintF data 135 2),
    ("horz_visibility_nm", (get_uint data 137 8).map (fun u => .vRat ((u : ℚ) / 10))),
    ("water_level_m", (get_uint data 145 12).map (fun u => .vRat ((u : ℚ) / 100 - 10))),
    ("water_level_trend", uintF data 157 2),
    ("surf_cur_speed_kts", (get_uint data 159 8).map (fun u => .vRat ((u : ℚ) / 10))),
    ("surf_cur_dir", uintF data 167 9),
    ("cur_speed_2_kts", (get_uint data 176 8).map (fun u => .vRat ((u : ℚ) / 10))),
    ("cur_dir_2", uintF data 184 9),
    ("cur_depth_2_m", uintF data 193 5),
    ("cur_speed_3_kts", (get_uint data 198 8).map (fun u => .vRat ((u : ℚ) / 10))),
    ("cur_dir_3", uintF data 206 9),
    ("cur_depth_3_m", uintF data 215 5),
    ("wave_height_m", (get_uint data 220 8).map (fun u => .vRat ((u : ℚ) / 10))),
    ("wave_period_s", uintF data 228 6),
    ("wave_dir", uintF data 234 9),
    ("swell_height_m", (get_uint data 243 8).map (fun u => .vRat ((u : ℚ) / 10))),
    ("swell_period_s", uintF data 251 6),
    ("swell_dir", uintF data 257 9),
    ("sea_state_beaufort", uintF data 266 4),
    ("water_temp_c", (get_int data 270 10).map (fun i => .vRat ((i : ℚ) / 10))),
    ("precip_type", uintF data 280 3),
    ("salinity_ppt", (get_uint data 283 9).map (fun u => .vRat ((u : ℚ) / 10))),
    ("ice", uintF data 292 2)]

/-- `decode_dac001`: FID dispatch table for DAC 1, with the unknown-FID error
variant and the per-message exception-to-error-dict translation. -/
def decode_dac001 (fid : Int) (data : List Nat) : Dict :=
  if fid = 11 then runDecoder fid data decode_001_11
  else if fid = 13 then runDecoder fid data decode_001_13
  else if fid = 15 then runDecoder fid data decode_001_15
  else if fid = 16 then runDecoder fid data decode_001_16
  else if fid = 17 then runDecoder fid data decode_001_17
  else if fid = 19 then runDecoder fid data decode_001_19
  else if fid = 21 then runDecoder fid data decode_001_21
  else if fid = 22 then runDecoder fid data decode_001_22
  else if fid = 24 then runDecoder fid data decode_001_24
  else if fid = 27 then runDecoder fid data decode_001_27
  else if fid = 29 then runDecoder fid data decode_001_29
  else if fid = 31 then runDecoder fid data decode_001_31
  else [("error", .vStr ("Unknown DAC 001 FID " ++ toString fid)), ("raw", .vStr (bytesHex data))]


/-! ## dac200.py -/

/-- The `INLAND_SHIP_TYPES` lookup table. -/
def INLAND_SHIP_TYPES : List (Nat × String) := [
  (8000, "Vessel, type unknown"),
  (8010, "Motor freighter"),
  (8020, "Motor tanker"),
  (8021, "Motor tanker, liquid cargo, type N"),
  (8022, "Motor tanker, liquid cargo, type C"),
  (8023, "Motor tanker, dry cargo as if liquid"),
  (8030, "Container vessel"),
  (8040, "Gas tanker"),
  (8050, "Motor freighter, tug"),
  (8060, "Motor tanker, tug"),
  (8070, "Motor freighter with one or more ships alongside"),
  (8080, "Motor freighter with tanker"),
  (8090, "Motor freighter pushing one or more freighters"),
  (8100, "Motor freighter pushing at least one tank-Loss"),
  (8110, "Tug, freighter"),
  (8120, "Tug, tanker"),
  (8130, "Tug, freighter, coupled"),
  (8140, "Tug, freighter/tanker, coupled"),
  (8150, "Freightbarge"),
  (8160, "Tankbarge"),
  (8161, "Tankbarge, liquid cargo, type N"),
  (8162, "Tankbarge, liquid cargo, type C"),
  (8163, "Tankbarge, dry cargo as if liquid"),
  (8170, "Freightbarge with containers"),
  (8180, "Tankbarge, gas"),
  (8210, "Pushtow, one cargo barge"),
  (8220, "Pushtow, two cargo barges"),
  (8230, "Pushtow, three cargo barges"),
  (8240, "Pushtow, four cargo barges"),
  (8250, "Pushtow, five cargo barges"),
  (8260, "Pushtow, six cargo barges"),
  (8270, "Pushtow, seven cargo barges"),
  (8280, "Pushtow, eight cargo barges"),
  (8290, "Pushtow, nine or more cargo barges"),
  (8310, "Pushtow, one tank/gas barge"),
  (8320, "Pushtow, two barges at least one tanker or gas barge"),
  (8330, "Pushtow, three barges at least one tanker or gas barge"),
  (8340, "Pushtow, four barges at least one tanker or gas barge"),
  (8350, "Pushtow, five barges at least one tanker or gas barge"),
  (8360, "Pushtow, six barges at least one tanker or gas barge"),
  (8370, "Pushtow, seven barges at least one tanker or gas barge"),
  (8380, "Pushtow, eight barges at least one tanker or gas barge"),
  (8390, "Pushtow, nine or more barges at least one tanker or gas barge"),
  (8400, "Tug, single"),
  (8410, "Tug, one or more tows"),
  (8420, "Tug, assisting a vessel or convey"),
  (8430, "Pushboat, single"),
  (8440, "Passenger ship"),
  (8441, "Ferry"),
  (8442, "Red Cross ship"),
  (8443, "Cruise ship"),
  (8444, "Passenger ship without accommodation"),
  (8450, "Service vessel, police patrol"),
  (8460, "Service vessel"),
  (8470, "Object, towed, not otherwise specified"),
  (8480, "Fishing boat"),
  (8490, "Bunkership"),
  (8500, "Barge, tanker, chemical"),
  (8510, "Object, not otherwise specified")]

/-- `INLAND_SHIP_TYPES.get(ship_type, f"Unknown ({ship_type})")`. -/
def inlandShipTypeText (t : Nat) : String :=
  (alook INLAND_SHIP_TYPES t).getD ("Unknown (" ++ toString t ++ ")")

/-- `decode_200_10` (Inland Ship Static and Voyage). -/
def decode_200_10 (data : List Nat) : Except PyErr Dict := do
  let shipType ← get_uint data 48 14
  mkDictE [
    ("fid", pure (.vInt 10)),
    ("description", pure (.vStr ("Inland Ship Static and Voyage"))),
    ("eni", strF data 0 48),
    ("length_m", (get_uint data 48 13).map (fun u => .vRat ((u : ℚ) / 10))),
    ("beam_m", (get_uint data 61 10).map (fun u => .vRat ((u : ℚ) / 10))),
    ("ship_type", pure (.vInt shipType)),
    ("ship_type_text", pure (.vStr (inlandShipTypeText shipType))),
    ("hazard", uintF data 88 3),
    ("draught_cm", uintF data 91 11),
    ("loaded", uintF data 102 2),
    ("speed_quality", boolF data 104),
    ("course_quality", boolF data 105),
    ("heading_quality", boolF data 106)]

/-- `decode_200_21` (ETA at Lock/Bridge/Terminal). -/
def decode_200_21 (data : List Nat) : Except PyErr Dict :=
  mkDictE [
    ("fid", pure (.vInt 21)),
    ("description", pure (.vStr ("ETA at Lock/Bridge/Terminal"))),
    ("country", strF data 0 12),
    ("location", strF data 12 18),
    ("section", strF data 30 30),
    ("terminal", strF data 60 30),
    ("fairway_section", strF data 90 30),
    ("fairway_hectometre", strF data 120 30),
    ("eta_month", uintF data 150 4),
    ("eta_day", uintF data 154 5),
    ("eta_hour", uintF data 159 5),
    ("eta_minute", uintF data 164 6),
    ("convoy_count", uintF data 170 3),
    ("convoy_length_m", (get_uint data 173 13).map (fun u => .vRat ((u : ℚ) / 10))),
    ("convoy_beam_m", (get_uint data 186 10).map (fun u => .vRat ((u : ℚ) / 10))),
    ("convoy_draught_cm", uintF data 196 11),
    ("direction", uintF data 207 1)]

/-- `decode_200_22` (RTA at Lock/Bridge/Terminal). -/
def decode_200_22 (data : List Nat) : Except PyErr Dict :=
  mkDictE [
    ("fid", pure (.vInt 22)),
    ("description", pure (.vStr ("RTA at Lock/Bridge/Terminal"))),
    ("country", strF data 0 12),
    ("location", strF data 12 18),
    ("section", strF data 30 30),
    ("terminal", strF data 60 30),
    ("fairway_section", strF data 90 30),
    ("fairway_hectometre", strF data 120 30),
    ("rta_month", uintF data 150 4),
    ("rta_day", uintF data 154 5),
    ("rta_hour", uintF data 159 5),
    ("rta_minute", uintF data 164 6),
    ("rta_status", uintF data 170 2)]

/-- `decode_200_23` (EMMA Warning). -/
def decode_200_23 (data : List Nat) : Except PyErr Dict :=
  mkDictE [
    ("fid", pure (.vInt 23)),
    ("description", pure (.vStr ("EMMA Warning"))),
    ("start_year", (get_uint data 0 8).map (fun u => .vInt (u + 2000))),
    ("start_month", uintF data 8 4),
    ("start_day", uintF data 12 5),
    ("end_year", (get_uint data 17 8).map (fun u => .vInt (u + 2000))),
    ("end_month", uintF data 25 4),
    ("end_day", uintF data 29 5),
    ("start_hour", uintF data 34 5),
    ("start_minute", uintF data 39 6),
    ("end_hour", uintF data 45 5),
    ("end_minute", uintF data 50 6),
    ("fairway_section", strF data 56 30),
    ("fairway_hectometre_from", uintF data 86 10),
    ("fairway_hectometre_to", uintF data 96 10),
    ("warning_type", uintF data 106 3),
    ("warning_value", intF data 109 14)]

/-- `decode_200_24` (Water Levels). -/
def decode_200_24 (data : List Nat) : Except PyErr Dict :=
  mkDictE [
    ("fid", pure (.vInt 24)),
    ("description", pure (.vStr ("Water Levels"))),
    ("country", strF data 0 12),
    ("gauge_id", uintF data 12 11),
    ("level_cm", intF data 23 14),
    ("day", uintF data 37 5),
    ("hour", uintF data 42 5),
    ("minute", uintF data 47 6)]

/-- `decode_200_40` (Signal Status). -/
def decode_200_40 (data : List Nat) : Except PyErr Dict := do
  let pos ← get_position data 0
  mkDictE [
    ("fid", pure (.vInt 40)),
    ("description", pure (.vStr ("Signal Status"))),
    ("longitude", pure (.vRat pos.1)),
    ("latitude", pure (.vRat pos.2)),
    ("form", uintF data 49 4),
    ("orientation", uintF data 53 9),
    ("direction", uintF data 62 3),
    ("status", uintF data 65 30)]

/-- `decode_200_55` (Number of Persons on Board, inland variant). -/
def decode_200_55 (data : List Nat) : Except PyErr Dict :=
  mkDictE [
    ("fid", pure (.vInt 55)),
    ("description", pure (.vStr ("Number of Persons on Board (Inland)"))),
    ("crew", uintF data 0 8),
    ("passengers", uintF data 8 13),
    ("personnel", uintF data 21 8)]

/-- `decode_dac200`: FID dispatch table for DAC 200. -/
def decode_dac200 (fid : Int) (data : List Nat) : Dict :=
  if fid = 10 then runDecoder fid data decode_200_10
  else if fid = 21 then runDecoder fid data decode_200_21
  else if fid = 22 then runDecoder fid data decode_200_22
  else if fid = 23 then runDecoder fid data decode_200_23
  else if fid = 24 then runDecoder fid data decode_200_24
  else if fid = 40 then runDecoder fid data decode_200_40
  else if fid = 55 then runDecoder fid data decode_200_55
  else [("error", .vStr ("Unknown DAC 200 FID " ++ toString fid)), ("raw", .vStr (bytesHex data))]

/-! ## dac367.py -/

/-- `REPORT_TYPES.get(report_type, f"Unknown ({report_type})")`. -/
def reportTypeName (t : Nat) : String :=
  (alook [
    ((0 : Nat), "Location"),
    (1, "Wind"),
    (2, "Water Level"),
    (3, "Current 2D"),
    (4, "Current 3D"),
    (5, "Horizontal Current 2D"),
    (6, "Horizontal Current 3D"),
    (7, "Sea State"),
    (8, "Salinity"),
    (9, "Weather"),
    (10, "Air Gap"),
    (11, "Air Pressure"),
    (12, "Ice")] t).getD ("Unknown (" ++ toString t ++ ")")

/-- One sub-area of `decode_367_22`, dispatched on the 3-bit shape tag. -/
def subArea367 (data : List Nat) (offset : Nat) : Except PyErr Dict := do
  let areaShape ← get_uint data offset 3
  if areaShape = 0 then
    mkDictE [
      ("shape", pure (.vInt areaShape)),
      ("scale_factor", uintF data (offset + 3) 2),
      ("longitude", (get_int data (offset + 5) 25).map (fun i => .vRat ((i : ℚ) / 60000))),
      ("latitude", (get_int data (offset + 30) 24).map (fun i => .vRat ((i : ℚ) / 60000))),
      ("precision", uintF data (offset + 54) 3),
      ("radius_m", uintF data (offset + 57) 12)]
  else if areaShape = 1 then
    mkDictE [
      ("shape", pure (.vInt areaShape)),
      ("scale_factor", uintF data (offset + 3) 2),
      ("longitude", (get_int data (offset + 5) 25).map (fun i => .vRat ((i : ℚ) / 60000))),
      ("latitude", (get_int data (offset + 30) 24).map (fun i => .vRat ((i : ℚ) / 60000))),
      ("precision", uintF data (offset + 54) 3),
      ("e_dim_m", uintF data (offset + 57) 8),
      ("n_dim_m", uintF data (offset + 65) 8),
      ("orientation", uintF data (offset + 73) 9)]
  else if areaShape = 2 then
    mkDictE [
      ("shape", pure (.vInt areaShape)),
      ("scale_factor", uintF data (offset + 3) 2),
      ("longitude", (get_int data (offset + 5) 25).map (fun i => .vRat ((i : ℚ) / 60000))),
      ("latitude", (get_int data (offset + 30) 24).map (fun i => .vRat ((i : ℚ) / 60000))),
      ("precision", uintF data (offset + 54) 3),
      ("radius_m", uintF data (offset + 57) 12),
      ("left_bound", uintF data (offset + 69) 9),
      ("right_bound", uintF data (offset + 78) 9)]
  else if areaShape = 3 ∨ areaShape = 4 then
    mkDictE [
      ("shape", pure (.vInt areaShape)),
      ("scale_factor", uintF data (offset + 3) 2),
      ("angle_1", uintF data (offset + 5) 10),
      ("dist_1", uintF data (offset + 15) 10),
      ("angle_2", uintF data (offset + 25) 10),
      ("dist_2", uintF data (offset + 35) 10),
      ("angle_3", uintF data (offset + 45) 10),
      ("dist_3", uintF data (offset + 55) 10),
      ("angle_4", uintF data (offset + 65) 10),
      ("dist_4", uintF data (offset + 75) 10)]
  else if areaShape = 5 then
    mkDictE [
      ("shape", pure (.vInt areaShape)),
      ("text", strF data (offset + 3) 84)]
  else
    mkDictE [
      ("shape", pure (.vInt areaShape)),
      ("raw", (get_uint data (offset + 3) 87).map (fun u => .vStr (pyHex u)))]

/-- The `while offset + 90 <= num_bits` sub-area loop of `decode_367_22`. -/
def subAreas367 (data : List Nat) (offset : Nat) : Except PyErr (List Value) :=
  if _h : offset + 90 ≤ 8 * data.length then do
    let sa ← subArea367 data offset
    let rest ← subAreas367 data (offset + 90)
    pure (Value.vDict sa :: rest)
  else pure []
termination_by 8 * data.length - offset
decreasing_by omega

/-- `decode_367_22` (Area Notice, US version: 6-bit version field, sub-areas
of 90 bits starting at bit 61). -/
def decode_367_22 (data : List Nat) : Except PyErr Dict := do
  let base ← mkDictE [
    ("fid", pure (.vInt 22)),
    ("description", pure (.vStr ("Area Notice (US)"))),
    ("version", uintF data 0 6),
    ("link_id", uintF data 6 10),
    ("notice_type", uintF data 16 7),
    ("month", uintF data 23 4),
    ("day", uintF data 27 5),
    ("hour", uintF data 32 5),
    ("minute", uintF data 37 6),
    ("duration_min", uintF data 43 18),
    ("sub_areas", pure (.vList []))]
  let sas ← subAreas367 data 61
  pure (aset ("sub_areas") (.vList sas) base)

/-- The common `(type, type_name)` head of every FID-33 report dict. -/
def reportHead (rt : Nat) : List (String × Except PyErr Value) :=
  [("type", pure (.vInt rt)), ("type_name", pure (.vStr (reportTypeName rt)))]

/-- The `while offset + 27 <= num_bits` report loop of `decode_367_33`; the
report-type tag selects both the field layout and the stride, and an
unrecognized tag captures the remaining bytes raw and stops the loop. -/
def reports367 (data : List Nat) (offset : Nat) : Except PyErr (List Value) :=
  if _h : offset + 27 ≤ 8 * data.length then do
    let rt ← get_uint data offset 4
    if rt = 0 then do
      let d ← mkDictE (reportHead rt ++ [
        ("version", uintF data (offset + 4) 6),
        ("longitude", (get_int data (offset + 10) 28).map (fun i => .vRat ((i : ℚ) / 600000))),
        ("latitude", (get_int data (offset + 38) 27).map (fun i => .vRat ((i : ℚ) / 600000))),
        ("precision", uintF data (offset + 65) 4),
        ("altitude_m", (get_int data (offset + 69) 12).map (fun i => .vRat ((i : ℚ) / 10))),
        ("owner", uintF data (offset + 81) 4),
        ("timeout", uintF data (offset + 85) 3)])
      let rest ← reports367 data (offset + 88)
      pure (Value.vDict d :: rest)
    else if rt = 1 then do
      let d ← mkDictE (reportHead rt ++ [
        ("day", uintF data (offset + 4) 5),
        ("hour", uintF data (offset + 9) 5),
        ("minute", uintF data (offset + 14) 6),
        ("site_id", uintF data (offset + 20) 7),
        ("wind_speed_kts", uintF data (offset + 27) 7),
        ("wind_gust_kts", uintF data (offset + 34) 7),
        ("wind_dir", uintF data (offset + 41) 9),
        ("wind_gust_dir", uintF data (offset + 50) 9),
        ("sensor_type", uintF data (offset + 59) 3),
        ("forecast_wind_speed_kts", uintF data (offset + 62) 7),
        ("forecast_wind_gust_kts", uintF data (offset + 69) 7),
        ("forecast_wind_dir", uintF data (offset + 76) 9),
        ("forecast_day", uintF data (offset + 85) 5),
        ("forecast_hour", uintF data (offset + 90) 5),
        ("forecast_minute", uintF data (offset + 95) 6),
        ("duration_min", uintF data (offset + 101) 8)])
      let rest ← reports367 data (offset + 109)
      pure (Value.vDict d :: rest)
    else if rt = 2 then do
      let d ← mkDictE (reportHead rt ++ [
        ("day", uintF data (offset + 4) 5),
        ("hour", uintF data (offset + 9) 5),
        ("minute", uintF data (offset + 14) 6),
        ("site_id", uintF data (offset + 20) 7),
        ("level_type", uintF data (offset + 27) 3),
        ("level_m", (get_int data (offset + 30) 16).map (fun i => .vRat ((i : ℚ) / 100))),
        ("trend", uintF data (offset + 46) 2),
        ("datum", uintF data (offset + 48) 5),
        ("sensor_type", uintF data (offset + 53) 3),
        ("forecast_type", uintF data (offset + 56) 3),
        ("forecast_day", uintF data (offset + 59) 5),
        ("forecast_hour", uintF data (offset + 64) 5),
        ("forecast_minute", uintF data (offset + 69) 6),
        ("duration_min", uintF data (offset + 75) 8)])
      let rest ← reports367 data (offset + 83)
      pure (Value.vDict d :: rest)
    else if rt = 3 then do
      let d ← mkDictE (reportHead rt ++ [
        ("day", uintF data (offset + 4) 5),
        ("hour", uintF data (offset + 9) 5),
        ("minute", uintF data (offset + 14) 6),
        ("site_id", uintF data (offset + 20) 7),
        ("cur_speed_kts", (get_uint data (offset + 27) 8).map (fun u => .vRat ((u : ℚ) / 10))),
        ("cur_dir", uintF data (offset + 35) 9),
        ("cur_depth_m", uintF data (offset + 44) 9)])
      let rest ← reports367 data (offset + 53)
      pure (Value.vDict d :: rest)
    else if rt = 7 then do
      let d ← mkDictE (reportHead rt ++ [
        ("day", uintF data (offset + 4) 5),
        ("hour", uintF data (offset + 9) 5),
        ("minute", uintF data (offset + 14) 6),
        ("site_id", uintF data (offset + 20) 7),
        ("swell_height_m", (get_uint data (offset + 27) 8).map (fun u => .vRat ((u : ℚ) / 10))),
        ("swell_period_s", uintF data (offset + 35) 6),
        ("swell_dir", uintF data (offset + 41) 9),
        ("sea_state_beaufort", uintF data (offset + 50) 4),
        ("swell_sensor_type", uintF data (offset + 54) 3),
        ("water_temp_c", (get_int data (offset + 57) 10).map (fun i => .vRat ((i : ℚ) / 10))),
        ("water_temp_depth_m", (get_uint data (offset + 67) 7).map (fun u => .vRat ((u : ℚ) / 10))),
        ("water_sensor_type", uintF data (offset + 74) 3),
        ("wave_height_m", (get_uint data (offset + 77) 8).map (fun u => .vRat ((u : ℚ) / 10))),
        ("wave_period_s", uintF data (offset + 85) 6),
        ("wave_dir", uintF data (offset + 91) 9),
        ("wave_sensor_type", uintF data (offset + 100) 3),
        ("salinity_ppt", (get_uint data (offset + 103) 9).map (fun u => .vRat ((u : ℚ) / 10)))])
      let rest ← reports367 data (offset + 112)
      pure (Value.vDict d :: rest)
    else if rt = 8 then do
      let d ← mkDictE (reportHead rt ++ [
        ("day", uintF data (offset + 4) 5),
        ("hour", uintF data (offset + 9) 5),
        ("minute", uintF data (offset + 14) 6),
        ("site_id", uintF data (offset + 20) 7),
        ("water_temp_c", (get_int data (offset + 27) 10).map (fun i => .vRat ((i : ℚ) / 10))),
        ("conductivity", (get_uint data (offset + 37) 10).map (fun u => .vRat ((u : ℚ) / 100))),
        ("pressure_dbar", (get_uint data (offset + 47) 16).map (fun u => .vRat ((u : ℚ) / 10))),
        ("salinity_ppt", (get_uint data (offset + 63) 9).map (fun u => .vRat ((u : ℚ) / 10))),
        ("salinity_type", uintF data (offset + 72) 2),
        ("sensor_type", uintF data (offset + 74) 3)])
      let rest ← reports367 data (offset + 77)
      pure (Value.vDict d :: rest)
    else if rt = 9 then do
      let d ← mkDictE (reportHead rt ++ [
        ("day", uintF data (offset + 4) 5),
        ("hour", uintF data (offset + 9) 5),
        ("minute", uintF data (offset + 14) 6),
        ("site_id", uintF data (offset + 20) 7),
        ("air_temp_c", (get_int data (offset + 27) 11).map (fun i => .vRat ((i : ℚ) / 10))),
        ("air_temp_sensor", uintF data (offset + 38) 3),
        ("precip_type", uintF data (offset + 41) 3),
        ("visibility_nm", (get_uint data (offset + 44) 8).map (fun u => .vRat ((u : ℚ) / 10))),
        ("dew_point_c", (get_int data (offset + 52) 10).map (fun i => .vRat ((i : ℚ) / 10))),
        ("dew_sensor", uintF data (offset + 62) 3),
        ("air_pressure_hpa", (get_uint data (offset + 65) 9).map (fun u => .vInt (u + 800))),
        ("pressure_trend", uintF data (offset + 74) 2),
        ("pressure_sensor", uintF data (offset + 76) 3),
        ("salinity_ppt", (get_uint data (offset + 79) 9).map (fun u => .vRat ((u : ℚ) / 10)))])
      let rest ← reports367 data (offset + 88)
      pure (Value.vDict d :: rest)
    else if rt = 10 then do
      let d ← mkDictE (reportHead rt ++ [
        ("day", uintF data (offset + 4) 5),
        ("hour", uintF data (offset + 9) 5),
        ("minute", uintF data (offset + 14) 6),
        ("site_id", uintF data (offset + 20) 7),
        ("air_draught_m", (get_uint data (offset + 27) 13).map (fun u => .vRat ((u : ℚ) / 10))),
        ("air_gap_m", (get_uint data (offset + 40) 13).map (fun u => .vRat ((u : ℚ) / 10))),
        ("air_gap_trend", uintF data (offset + 53) 2),
        ("predicted_air_gap_m", (get_uint data (offset + 55) 13).map (fun u => .vRat ((u : ℚ) / 10))),
        ("forecast_day", uintF data (offset + 68) 5),
        ("forecast_hour", uintF data (offset + 73) 5),
        ("forecast_minute", uintF data (offset + 78) 6)])
      let rest ← reports367 data (offset + 84)
      pure (Value.vDict d :: rest)
    else if rt = 11 then do
      let d ← mkDictE (reportHead rt ++ [
        ("day", uintF data (offset + 4) 5),
        ("hour", uintF data (offset + 9) 5),
        ("minute", uintF data (offset + 14) 6),
        ("site_id", uintF data (offset + 20) 7),
        ("air_pressure_hpa", (get_uint data (offset + 27) 9).map (fun u => .vInt (u + 800))),
        ("pressure_trend", uintF data (offset + 36) 2),
        ("sensor_type", uintF data (offset + 38) 3),
        ("forecast_pressure", (get_uint data (offset + 41) 9).map (fun u => .vInt (u + 800))),
        ("forecast_day", uintF data (offset + 50) 5),
        ("forecast_hour", uintF data (offset + 55) 5),
        ("forecast_minute", uintF data (offset + 60) 6),
        ("duration_min", uintF data (offset + 66) 8)])
      let rest ← reports367 data (offset + 74)
      pure (Value.vDict d :: rest)
    else do
      let d ← mkDictE (reportHead rt ++ [
        ("raw_remaining", pure (.vStr (bytesHex (data.drop (offset / 8)))))])
      pure [Value.vDict d]
  else pure []
termination_by 8 * data.length - offset
decreasing_by all_goals omega

/-- `decode_367_33` (Environmental Sensor Reports). -/
def decode_367_33 (data : List Nat) : Except PyErr Dict := do
  let base ← mkDictE [
    ("fid", pure (.vInt 33)),
    ("description", pure (.vStr ("Environmental Sensor Reports (US)"))),
    ("reports", pure (.vList []))]
  let rpts ← reports367 data 0
  pure (aset ("reports") (.vList rpts) base)

/-- `decode_dac367`: FID dispatch table for DAC 367. -/
def decode_dac367 (fid : Int) (data : List Nat) : Dict :=
  if fid = 22 then runDecoder fid data decode_367_22
  else if fid = 33 then runDecoder fid data decode_367_33
  else [("error", .vStr ("Unknown DAC 367 FID " ++ toString fid)), ("raw", .vStr (bytesHex data))]

/-! ## __init__.py -/

/-- One hexadecimal digit, per `bytes.fromhex`. -/
def hexVal (c : Char) : Option Nat :=
  if '0' ≤ c ∧ c ≤ '9' then some (c.toNat - 48)
  else if 'a' ≤ c ∧ c ≤ 'f' then some (c.toNat - 87)
  else if 'A' ≤ c ∧ c ≤ 'F' then some (c.toNat - 55)
  else none

/-- Python `bytes.fromhex`: pairs of hex digits, spaces allowed between pairs,
`None` (a raised `ValueError`) on anything else. The empty string parses to
empty bytes. -/
def pyFromHexAux : List Char → Option (List Nat)
  | [] => some []
  | c :: rest =>
    if c = ' ' then pyFromHexAux rest
    else
      match rest with
      | [] => none
      | c₂ :: rest₂ => do
        let hi ← hexVal c
        let lo ← hexVal c₂
        let bs ← pyFromHexAux rest₂
        some ((hi * 16 + lo) :: bs)

/-- `bytes.fromhex` on a string. -/
def pyFromHex (s : String) : Option (List Nat) :=
  pyFromHexAux s.data

/-- `decode_binary_payload` on a payload already in bytes form. The empty-payload
check precedes the DAC dispatch; the dispatch's `try/except` is modelled by the
region dispatchers themselves, which are total (they catch every exception of
their decoders internally, so the outer handler in the source is unreachable). -/
def decode_binary_payload (dac fid : Int) (data : List Nat) : Dict :=
  if data.length = 0 then
    [("error", .vStr ("Empty payload")), ("dac", .vInt dac), ("fid", .vInt fid)]
  else
    let result : Dict := [("dac", .vInt dac), ("fid", .vInt fid)]
    let decoded : Dict :=
      if dac = 1 then decode_dac001 fid data
      else if dac = 200 then decode_dac200 fid data
      else if dac = 366 ∨ dac = 367 then decode_dac367 fid data
      else if dac = 316 then decode_dac367 fid data
      else if dac = 235 ∨ dac = 250 then
        [("error", .vStr ("DAC " ++ toString dac ++ " not fully implemented")),
         ("raw", .vStr (bytesHex data))]
      else
        [("error", .vStr ("Unknown DAC " ++ toString dac)), ("raw", .vStr (bytesHex data))]
    dictUpdate result decoded

/-- `decode_binary_payload` on a string payload: try `bytes.fromhex`, and on
its `ValueError` fall back to dearmoring with the given pad count. -/
def decode_binary_payload_str (dac fid : Int) (s : String) (pad : Nat) : Dict :=
  match pyFromHex s with
  | some bs => decode_binary_payload dac fid bs
  | none => decode_binary_payload dac fid (bits_from_ais_payload s pad)


/-! ## db/decoder.py: MultiPartBuffer

NMEA sentences, group ids, channels and timestamps are Python strings, which
this section models as `List Char` so that splitting on commas and integer
parsing stay within kernel-computable territory. -/

/-- Python `nmea.split(",")`. -/
def splitComma : List Char → List (List Char)
  | [] => [[]]
  | c :: rest =>
    if c = ',' then [] :: splitComma rest
    else
      match splitComma rest with
      | [] => [[c]]
      | g :: gs => (c :: g) :: gs

/-- Decimal digits to a number; `none` on empty input or a non-digit. -/
def digitsToNat (cs : List Char) : Option Nat :=
  match cs with
  | [] => none
  | _ =>
    cs.foldlM (fun acc c =>
      if '0' ≤ c ∧ c ≤ '9' then some (acc * 10 + (c.toNat - 48)) else none) 0

/-- Python `int(s)` restricted to canonical decimal literals (an optional sign
followed by digits); every sentence field the claims exercise is of this form,
and a failure models the `ValueError` that `int` raises. -/
def pyInt (cs : List Char) : Option Int :=
  match cs with
  | '-' :: rest => (digitsToNat rest).map (fun n => -(n : Int))
  | _ => (digitsToNat cs).map (fun n => (n : Int))

/-- Reassembly key `(seq_id, channel, total)`. -/
abbrev RKey := List Char × List Char × Int

/-- One buffered fragment `(sentence, raw_id, timestamp)`. -/
abbrev Frag := List Char × Int × List Char

/-- The state of `MultiPartBuffer`: the pending-fragment map, the per-key
creation times, and the timeout. -/
structure MultiPartBuffer where
  buffer : List (RKey × List (Int × Frag))
  timestamps : List (RKey × ℚ)
  timeout : ℚ

/-- `MultiPartBuffer(timeout_seconds)`: empty buffer. -/
def MultiPartBuffer.make (timeout : ℚ) : MultiPartBuffer :=
  ⟨[], [], timeout⟩

/-- `MultiPartBuffer._cleanup(now)`: collect the keys whose creation time is
strictly older than the timeout, then delete each from both maps. -/
def MultiPartBuffer.cleanup (st : MultiPartBuffer) (now : ℚ) : MultiPartBuffer :=
  let expired := (st.timestamps.filter (fun kt => decide (now - kt.2 > st.timeout))).map
    (fun kt => kt.1)
  { st with buffer := expired.foldl (fun b k => aerase k b) st.buffer,
            timestamps := expired.foldl (fun m k => aerase k m) st.timestamps }

/-- The `for i in range(1, total + 1)` assembly loop: look up each part in
ascending order; a missing part is the `KeyError` of `self.buffer[key][i]`. -/
def MultiPartBuffer.assemble (entry : List (Int × Frag)) (total : Int) : Option (List Frag) :=
  (List.range total.toNat).mapM (fun (i : Nat) => alook entry ((i : Int) + 1))

/-- `MultiPartBuffer.add(nmea, raw_id, timestamp)` at clock reading `now`.
The source's `except (ValueError, IndexError)` covers exactly the `int()`
failures (nothing else in the body raises either exception), so that handler
is the final `none`-parse arm here; the `KeyError` of the assembly loop is not
caught and surfaces as `.error`. -/
def MultiPartBuffer.add (st : MultiPartBuffer) (nmea : List Char) (rawId : Int)
    (timestamp : List Char) (now : ℚ) :
    Except PyErr (Option (List (List Char) × List Int × List Char) × MultiPartBuffer) :=
  let parts := splitComma nmea
  if parts.length < 7 then .ok (none, st)
  else
    match pyInt (parts.getD 1 []), pyInt (parts.getD 2 []) with
    | some total, some seqNum =>
      let seqId := parts.getD 3 []
      let channel := parts.getD 4 []
      if total = 1 then .ok (some ([nmea], [rawId], timestamp), st)
      else
        let key : RKey := (seqId, channel, total)
        let st1 := st.cleanup now
        let st2 :=
          if (alook st1.buffer key).isSome then st1
          else { st1 with buffer := aset key [] st1.buffer,
                          timestamps := aset key now st1.timestamps }
        let entry := aset seqNum (nmea, rawId, timestamp) ((alook st2.buffer key).getD [])
        let st3 := { st2 with buffer := aset key entry st2.buffer }
        if (entry.length : Int) = total then
          match MultiPartBuffer.assemble entry total with
          | some frags =>
            .ok (some (frags.map (fun f => f.1), frags.map (fun f => f.2.1), timestamp),
              { st3 with buffer := aerase key st3.buffer,
                         timestamps := aerase key st3.timestamps })
          | none => .error .keyError
        else .ok (none, st3)
    | _, _ => .ok (none, st)

/-- `MultiPartBuffer.get_incomplete()`: the raw ids of every buffered fragment. -/
def MultiPartBuffer.get_incomplete (st : MultiPartBuffer) : List Int :=
  st.buffer.flatMap (fun ke => ke.2.map (fun p => p.2.2.1))

/-- One argument tuple for a call to `add`. -/
structure AddItem where
  nmea : List Char
  rawId : Int
  timestamp : List Char
  now : ℚ

/-- A sequence of `add` calls, collecting each call's return value. -/
def addAll (st : MultiPartBuffer) :
    List AddItem →
    Except PyErr (List (Option (List (List Char) × List Int × List Char)) × MultiPartBuffer)
  | [] => .ok ([], st)
  | it :: rest => do
    let (r, st') ← st.add it.nmea it.rawId it.timestamp it.now
    let (rs, stF) ← addAll st' rest
    pure (r :: rs, stF)

/-! ## Re-armoring (the spec's inverse mapping, for the round-trip claim) -/

/-- The bit of `data` at absolute bit position `p`, addressed exactly as
`BitReader` addresses bits (byte `p / 8`, mask `1 << (7 - p % 8)`). -/
def bitAt (data : List Nat) (p : Nat) : Nat :=
  if data.getD (p / 8) 0 &&& (1 <<< (7 - p % 8)) ≠ 0 then 1 else 0

/-- MSB-first value of a list of bits. -/
def bitVal (l : List Nat) : Nat :=
  l.foldl (fun acc b => 2 * acc + b) 0

/-- Modelled from the spec (C7): re-armoring `n` characters from dearmored
bytes — take successive 6-bit groups MSB-first and apply the inverse alphabet
mapping, `v < 40 ↦ chr(v + 48)` and `v ≥ 40 ↦ chr(v + 56)`. -/
def rearmor (bytes : List Nat) (n : Nat) : String :=
  String.mk ((List.range n).map (fun g =>
    let v := bitVal ((List.range 6).map (fun i => bitAt bytes (6 * g + i)))
    if v < 40 then Char.ofNat (v + 48) else Char.ofNat (v + 56)))

/-- The valid AIS armor alphabet: the two ASCII ranges 48–87 and 96–119. -/
def isArmorChar (c : Char) : Prop :=
  (48 ≤ c.toNat ∧ c.toNat ≤ 87) ∨ (96 ≤ c.toNat ∧ c.toNat ≤ 119)

instance decIsArmorChar (c : Char) : Decidable (isArmorChar c) :=
  inferInstanceAs (Decidable ((48 ≤ c.toNat ∧ c.toNat ≤ 87) ∨ (96 ≤ c.toNat ∧ c.toNat ≤ 119)))

/-- The six-bit value of a valid armor character, as a natural number. -/
def armorNat (c : Char) : Nat :=
  if c.toNat ≤ 87 then c.toNat - 48 else c.toNat - 56

/-- Shape facts shared by every region-decoder result dictionary: keys are
duplicate-free, `"dac"` never occurs, any `"fid"` binding carries the
dispatched fid, and an `"error"` or `"description"` binding is present. -/
structure DecodedShape (fid : Int) (d : Dict) : Prop where
  nodup : (d.map Prod.fst).Nodup
  no_dac : alook d ("dac") = none
  fid_ok : alook d ("fid") = none ∨ alook d ("fid") = some (.vInt fid)
  tagged : alook d ("error") ≠ none ∨ alook d ("description") ≠ none

/-! ## Lemma development -/

theorem alook_aset_self {κ α : Type} [DecidableEq κ] (k : κ) (v : α) (l : List (κ × α)) :
    alook (aset k v l) k = some v := by
  induction l with
  | nil => simp [aset, alook]
  | cons p rest ih =>
    by_cases hp : p.1 = k
    · simp [aset, alook, hp]
    · simp [aset, alook, hp, ih]

theorem alook_aset_ne {κ α : Type} [DecidableEq κ] {k k' : κ} (v : α) (l : List (κ × α))
    (h : k' ≠ k) : alook (aset k' v l) k = alook l k := by
  induction l with
  | nil => simp [aset, alook, h]
  | cons p rest ih =>
    by_cases hp : p.1 = k'
    · simp [aset, alook, hp, h]
    · simp only [aset, hp, if_false]
      by_cases hk : p.1 = k
      · simp [alook, hk]
      · simp [alook, hk, ih]

theorem alook_aerase_self {κ α : Type} [DecidableEq κ] (k : κ) (l : List (κ × α)) :
    alook (aerase k l) k = none := by
  induction l with
  | nil => simp [aerase, alook]
  | cons p rest ih =>
    by_cases hp : p.1 = k
    · simpa [aerase, hp] using ih
    · simpa [aerase, alook, hp] using ih

theorem alook_aerase_ne {κ α : Type} [DecidableEq κ] {k k' : κ} (l : List (κ × α))
    (h : k' ≠ k) : alook (aerase k' l) k = alook l k := by
  induction l with
  | nil => simp [aerase, alook]
  | cons p rest ih =>
    by_cases hp : p.1 = k'
    · have hk : p.1 ≠ k := by rw [hp]; exact h
      have hdrop : aerase k' (p :: rest) = aerase k' rest := by
        simp [aerase, List.filter_cons, hp]
      rw [hdrop, ih]
      simp [alook, hk]
    · have hkeep : aerase k' (p :: rest) = p :: aerase k' rest := by
        simp [aerase, List.filter_cons, hp]
      rw [hkeep]
      by_cases hk : p.1 = k
      · simp [alook, hk]
      · simp only [alook, hk, if_false]
        exact ih

theorem mem_of_mem_aerase {κ α : Type} [DecidableEq κ] {k : κ} {l : List (κ × α)}
    {p : κ × α} (h : p ∈ aerase k l) : p ∈ l :=
  List.mem_of_mem_filter h

theorem length_aset {κ α : Type} [DecidableEq κ] (k : κ) (v : α) (l : List (κ × α)) :
    (aset k v l).length = if (alook l k).isSome then l.length else l.length + 1 := by
  induction l with
  | nil => simp [aset, alook]
  | cons p rest ih =>
    by_cases hp : p.1 = k
    · simp [aset, alook, hp]
    · simp only [aset, hp, if_false, List.length_cons, ih, alook]
      by_cases hs : (alook rest k).isSome <;> simp [hs]

theorem aset_append_of_not_mem {κ α : Type} [DecidableEq κ] (k : κ) (v : α)
    (l : List (κ × α)) (h : alook l k = none) : aset k v l = l ++ [(k, v)] := by
  induction l with
  | nil => simp [aset]
  | cons p rest ih =>
    by_cases hp : p.1 = k
    · simp [alook, hp] at h
    · simp only [alook, hp, if_false] at h
      simp [aset, hp, ih h]

theorem alook_dictUpdate_of_not_mem (d₁ d₂ : Dict) (k : String)
    (h : ∀ p ∈ d₂, p.1 ≠ k) : alook (dictUpdate d₁ d₂) k = alook d₁ k := by
  induction d₂ generalizing d₁ with
  | nil => rfl
  | cons p rest ih =>
    have hp : p.1 ≠ k := h p (List.mem_cons_self p rest)
    have hr : ∀ q ∈ rest, q.1 ≠ k := fun q hq => h q (List.mem_cons_of_mem p hq)
    show alook (dictUpdate (aset p.1 p.2 d₁) rest) k = alook d₁ k
    rw [ih _ hr, alook_aset_ne _ _ hp]

theorem alook_dictUpdate_of_mem (d₁ d₂ : Dict) (k : String) (v : Value)
    (hnd : (d₂.map Prod.fst).Nodup) (h : alook d₂ k = some v) :
    alook (dictUpdate d₁ d₂) k = some v := by
  induction d₂ generalizing d₁ with
  | nil => simp [alook] at h
  | cons p rest ih =>
    simp only [List.map_cons, List.nodup_cons] at hnd
    by_cases hp : p.1 = k
    · simp only [alook, hp, if_true] at h
      cases h
      have hrest : ∀ q ∈ rest, q.1 ≠ k := by
        intro q hq hqk
        have hmem : k ∈ List.map Prod.fst rest := hqk ▸ List.mem_map_of_mem Prod.fst hq
        exact hnd.1 (by rw [hp]; exact hmem)
      show alook (dictUpdate (aset p.1 p.2 d₁) rest) k = some p.2
      rw [alook_dictUpdate_of_not_mem _ _ _ hrest, hp, alook_aset_self]
    · simp only [alook, hp, if_false] at h
      exact ih _ hnd.2 h

theorem alook_dictUpdate_congr (d₁ d₁' d₂ : Dict) (k : String)
    (h : alook d₁ k = alook d₁' k) :
    alook (dictUpdate d₁ d₂) k = alook (dictUpdate d₁' d₂) k := by
  induction d₂ generalizing d₁ d₁' with
  | nil => exact h
  | cons p rest ih =>
    show alook (dictUpdate (aset p.1 p.2 d₁) rest) k
        = alook (dictUpdate (aset p.1 p.2 d₁') rest) k
    refine ih _ _ ?_
    by_cases hp : p.1 = k
    · rw [hp, alook_aset_self, alook_aset_self]
    · rw [alook_aset_ne _ _ hp, alook_aset_ne _ _ hp, h]


theorem except_bind_ok {α β : Type} {e : Except PyErr α} {f : α → Except PyErr β} {b : β}
    (h : (e >>= f) = .ok b) : ∃ a, e = .ok a ∧ f a = .ok b := by
  cases e with
  | error err => simp [Bind.bind, Except.bind] at h
  | ok a => exact ⟨a, rfl, by simpa [Bind.bind, Except.bind] using h⟩

theorem alook_eq_none_iff {κ α : Type} [DecidableEq κ] {l : List (κ × α)} {k : κ} :
    alook l k = none ↔ ∀ p ∈ l, p.1 ≠ k := by
  induction l with
  | nil => simp [alook]
  | cons p rest ih =>
    by_cases hp : p.1 = k
    · simp [alook, hp]
    · simp [alook, hp, ih]

theorem mkDictE_ok_keys : ∀ {ps : List (String × Except PyErr Value)} {d : Dict},
    mkDictE ps = .ok d → d.map Prod.fst = ps.map Prod.fst := by
  intro ps
  induction ps with
  | nil =>
    intro d h
    simp only [mkDictE] at h
    cases h
    rfl
  | cons p rest ih =>
    intro d h
    obtain ⟨k, ev⟩ := p
    simp only [mkDictE] at h
    cases ev with
    | error e => cases h
    | ok v =>
      cases hrest : mkDictE rest with
      | error e => rw [hrest] at h; cases h
      | ok d' =>
        rw [hrest] at h
        cases h
        simp [ih hrest]

theorem mkDictE_cons_pure_ok {k : String} {v : Value}
    {ps : List (String × Except PyErr Value)} {d : Dict}
    (h : mkDictE ((k, pure v) :: ps) = .ok d) :
    ∃ d', d = (k, v) :: d' ∧ mkDictE ps = .ok d' := by
  simp only [mkDictE] at h
  cases hrest : mkDictE ps with
  | error e => rw [hrest] at h; cases h
  | ok d' =>
    rw [hrest] at h
    cases h
    exact ⟨d', rfl, rfl⟩

theorem keys_aset_of_mem {κ α : Type} [DecidableEq κ] {k : κ} (v : α) {l : List (κ × α)}
    (h : (alook l k).isSome) : (aset k v l).map Prod.fst = l.map Prod.fst := by
  induction l with
  | nil => simp [alook] at h
  | cons p rest ih =>
    by_cases hp : p.1 = k
    · simp [aset, hp]
    · simp only [alook, hp, if_false] at h
      simp [aset, hp, ih h]

theorem keys_aset_of_not_mem {κ α : Type} [DecidableEq κ] {k : κ} (v : α) {l : List (κ × α)}
    (h : alook l k = none) : (aset k v l).map Prod.fst = l.map Prod.fst ++ [k] := by
  rw [aset_append_of_not_mem _ _ _ h]
  simp

/-- Shape of a decoder result produced by a dict literal headed by the
constant `fid` and `description` fields. -/
theorem shape_of_mkDictE (F : Int) (descV : Value) {ps : List (String × Except PyErr Value)}
    {d : Dict} (ks : List String)
    (h : mkDictE (("fid", pure (.vInt F)) :: ("description", pure descV) :: ps) = .ok d)
    (hks : ps.map Prod.fst = ks)
    (hnd : ("fid" :: "description" :: ks).Nodup)
    (hdac : "dac" ∉ ("fid" :: "description" :: ks)) :
    DecodedShape F d := by
  obtain ⟨d1, rfl, h1⟩ := mkDictE_cons_pure_ok h
  obtain ⟨d2, rfl, h2⟩ := mkDictE_cons_pure_ok h1
  have hk2 : d2.map Prod.fst = ks := by rw [mkDictE_ok_keys h2, hks]
  have hkeys : ((("fid", Value.vInt F) :: ("description", descV) :: d2).map Prod.fst)
      = "fid" :: "description" :: ks := by simp [hk2]
  refine ⟨by rw [hkeys]; exact hnd, ?_, ?_, ?_⟩
  · rw [alook_eq_none_iff]
    intro p hp hpk
    apply hdac
    rw [← hpk, ← hkeys]
    exact List.mem_map_of_mem Prod.fst hp
  · right; simp [alook]
  · right; simp [alook]

/-- Shape of the error dictionaries `{"error": ..., "fid": fid, "raw": ...}`. -/
theorem shape_err_fid_raw (F : Int) (msg raw : String) :
    DecodedShape F [("error", .vStr msg), ("fid", .vInt F), ("raw", .vStr raw)] := by
  refine ⟨by simp, by simp [alook], ?_, ?_⟩
  · right; simp [alook]
  · left; simp [alook]

/-- Shape of the error dictionaries `{"error": ..., "raw": ...}`. -/
theorem shape_err_raw (F : Int) (msg raw : String) :
    DecodedShape F [("error", .vStr msg), ("raw", .vStr raw)] := by
  refine ⟨by simp, by simp [alook], ?_, ?_⟩
  · left; simp [alook]
  · left; simp [alook]

/-- Shape transfer across the `try/except` wrapper. -/
theorem runDecoder_shape {F : Int} {data : List Nat} {dec : List Nat → Except PyErr Dict}
    (hdec : ∀ d, dec data = .ok d → DecodedShape F d) :
    DecodedShape F (runDecoder F data dec) := by
  unfold runDecoder
  cases h : dec data with
  | error e => exact shape_err_fid_raw F e.msg (bytesHex data)
  | ok d => exact hdec d h


/-! ## Decoder result shapes -/

theorem alook_isSome_of_mem_keys {κ α : Type} [DecidableEq κ] {l : List (κ × α)} {k : κ}
    (h : k ∈ l.map Prod.fst) : (alook l k).isSome := by
  induction l with
  | nil => simp at h
  | cons p rest ih =>
    by_cases hp : p.1 = k
    · simp [alook, hp]
    · simp only [List.map_cons, List.mem_cons] at h
      rcases h with h | h
      · exact absurd h.symm hp
      · simp [alook, hp, ih h]

theorem alook_none_of_keys {κ α : Type} [DecidableEq κ] {l : List (κ × α)} {ks : List κ}
    {k : κ} (hks : l.map Prod.fst = ks) (h : k ∉ ks) : alook l k = none := by
  rw [alook_eq_none_iff]
  intro p hp hpk
  exact h (hks ▸ (hpk ▸ List.mem_map_of_mem Prod.fst hp))

/-- Updating an existing non-special key preserves the decoder shape. -/
theorem shape_aset_existing {F : Int} {k : String} {v : Value} {d : Dict}
    (hs : DecodedShape F d) (hk : (alook d k).isSome)
    (h1 : k ≠ "dac") (h2 : k ≠ "fid") (h3 : k ≠ "error") (h4 : k ≠ "description") :
    DecodedShape F (aset k v d) := by
  refine ⟨?_, ?_, ?_, ?_⟩
  · rw [keys_aset_of_mem _ hk]; exact hs.nodup
  · rw [alook_aset_ne _ _ h1]; exact hs.no_dac
  · rw [alook_aset_ne _ _ h2]; exact hs.fid_ok
  · rw [alook_aset_ne _ _ h3, alook_aset_ne _ _ h4]; exact hs.tagged

/-- Appending a fresh non-special key preserves the decoder shape. -/
theorem shape_aset_fresh {F : Int} {k : String} {v : Value} {d : Dict}
    (hs : DecodedShape F d) (hk : alook d k = none)
    (h1 : k ≠ "dac") (h2 : k ≠ "fid") (h3 : k ≠ "error") (h4 : k ≠ "description") :
    DecodedShape F (aset k v d) := by
  refine ⟨?_, ?_, ?_, ?_⟩
  · rw [keys_aset_of_not_mem _ hk]
    rw [List.nodup_append]
    refine ⟨hs.nodup, List.nodup_singleton _, ?_⟩
    intro a ha hb
    simp only [List.mem_singleton] at hb
    subst hb
    have := alook_eq_none_iff.mp hk
    obtain ⟨p, hp, hpa⟩ := List.mem_map.mp ha
    exact this p hp hpa
  · rw [alook_aset_ne _ _ h1]; exact hs.no_dac
  · rw [alook_aset_ne _ _ h2]; exact hs.fid_ok
  · rw [alook_aset_ne _ _ h3, alook_aset_ne _ _ h4]; exact hs.tagged

theorem decode_001_11_shape (data : List Nat) :
    ∀ d, decode_001_11 data = .ok d → DecodedShape 11 d := by
  intro d h
  unfold decode_001_11 at h
  obtain ⟨lat, _, h⟩ := except_bind_ok h
  obtain ⟨lon, _, h⟩ := except_bind_ok h
  exact shape_of_mkDictE 11 _ ["latitude", "longitude", "day", "hour", "minute",
    "wind_ave_kts", "wind_gust_kts", "wind_dir", "wind_gust_dir", "air_temp_c",
    "rel_humidity_pct", "dew_point_c", "air_pressure_hpa", "air_pressure_trend",
    "horz_visibility_nm", "water_level_m", "water_level_trend", "surf_cur_speed_kts",
    "surf_cur_dir", "cur_speed_2_kts", "cur_dir_2", "cur_depth_2_m", "cur_speed_3_kts",
    "cur_dir_3", "cur_depth_3_m", "wave_height_m", "wave_period_s", "wave_dir",
    "swell_height_m", "swell_period_s", "swell_dir", "sea_state_beaufort",
    "water_temp_c", "precip_type", "salinity_ppt", "ice"] h rfl (by decide) (by decide)

theorem decode_001_13_shape (data : List Nat) :
    ∀ d, decode_001_13 data = .ok d → DecodedShape 13 d := by
  intro d h
  unfold decode_001_13 at h
  exact shape_of_mkDictE 13 _ ["reason", "location_from", "location_to", "radius",
    "units", "day_from", "month_from", "hour_from", "minute_from", "day_to",
    "month_to", "hour_to", "minute_to"] h rfl (by decide) (by decide)

theorem decode_001_15_shape (data : List Nat) :
    ∀ d, decode_001_15 data = .ok d → DecodedShape 15 d := by
  intro d h
  unfold decode_001_15 at h
  exact shape_of_mkDictE 15 _ ["air_draught_m"] h rfl (by decide) (by decide)

theorem decode_001_16_shape (data : List Nat) :
    ∀ d, decode_001_16 data = .ok d → DecodedShape 16 d := by
  intro d h
  unfold decode_001_16 at h
  exact shape_of_mkDictE 16 _ ["persons"] h rfl (by decide) (by decide)

theorem decode_001_17_shape (data : List Nat) :
    ∀ d, decode_001_17 data = .ok d → DecodedShape 17 d := by
  intro d h
  unfold decode_001_17 at h
  obtain ⟨targets, _, h⟩ := except_bind_ok h
  exact shape_of_mkDictE 17 _ ["targets"] h rfl (by decide) (by decide)

theorem decode_001_19_shape (data : List Nat) :
    ∀ d, decode_001_19 data = .ok d → DecodedShape 19 d := by
  intro d h
  unfold decode_001_19 at h
  obtain ⟨pos, _, h⟩ := except_bind_ok h
  exact shape_of_mkDictE 19 _ ["link_id", "name", "longitude", "latitude", "status",
    "signal", "utc_hour_next", "utc_min_next", "next_signal"] h rfl (by decide) (by decide)

theorem decode_001_21_shape (data : List Nat) :
    ∀ d, decode_001_21 data = .ok d → DecodedShape 21 d := by
  intro d h
  unfold decode_001_21 at h
  obtain ⟨b, _, h⟩ := except_bind_ok h
  cases b with
  | false =>
    simp only [Bool.not_false, if_true] at h
    obtain ⟨pos, _, h⟩ := except_bind_ok h
    exact shape_of_mkDictE 21 _ ["type", "location", "longitude", "latitude", "day",
      "hour", "minute", "wx_code", "horz_visibility_nm", "humidity_pct",
      "wind_speed_kts", "wind_dir", "air_pressure_hpa", "air_pressure_trend",
      "air_temp_c", "water_temp_c", "wave_period_s", "wave_height_m", "wave_dir",
      "swell_height_m", "swell_dir", "swell_period_s"] h rfl (by decide) (by decide)
  | true =>
    simp only [Bool.not_true, if_false] at h
    obtain ⟨lon, _, h⟩ := except_bind_ok h
    obtain ⟨lat, _, h⟩ := except_bind_ok h
    exact shape_of_mkDictE 21 _ ["type", "longitude", "latitude", "month", "day",
      "hour", "minute", "cog", "sog_kts", "heading", "pressure_hpa",
      "rel_pressure_hpa", "pressure_trend", "wind_dir", "wind_speed_ms",
      "wind_dir_rel", "wind_speed_rel_ms", "wind_gust_speed_ms", "wind_gust_dir",
      "air_temp_raw", "humidity_pct", "water_temp_raw", "wx_current", "wx_past_1",
      "wx_past_2", "cloud_total_pct", "cloud_low", "cloud_low_type",
      "cloud_middle_type", "cloud_high_type", "wave_period_s", "wave_height_m",
      "swell_dir", "swell_period_s", "swell_height_m", "ice_thickness_m",
      "ice_accretion", "ice_accretion_cause"] h rfl (by decide) (by decide)

theorem decode_001_22_shape (data : List Nat) :
    ∀ d, decode_001_22 data = .ok d → DecodedShape 22 d := by
  intro d h
  unfold decode_001_22 at h
  obtain ⟨base, hbase, h⟩ := except_bind_ok h
  have hshape : DecodedShape 22 base := shape_of_mkDictE 22 _ ["link_id", "notice_type",
    "month", "day", "hour", "minute", "duration_min", "sub_areas"] hbase rfl
    (by decide) (by decide)
  have hkeys : base.map Prod.fst = ["fid", "description", "link_id", "notice_type",
      "month", "day", "hour", "minute", "duration_min", "sub_areas"] := by
    rw [mkDictE_ok_keys hbase]; rfl
  have h1 : alook base ("num_sub_areas") = none := alook_none_of_keys hkeys (by decide)
  dsimp only at h
  split at h
  · simp only [pure, Except.pure, Except.ok.injEq] at h
    subst h
    refine shape_aset_fresh
      (shape_aset_fresh hshape h1 (by decide) (by decide) (by decide) (by decide))
      ?_ (by decide) (by decide) (by decide) (by decide)
    rw [alook_eq_none_iff]
    intro p hp hpk
    have hmemk := hpk ▸ List.mem_map_of_mem Prod.fst hp
    rw [keys_aset_of_not_mem _ h1, hkeys] at hmemk
    revert hmemk
    decide
  · simp only [pure, Except.pure, Except.ok.injEq] at h
    subst h
    exact hshape

theorem decode_001_24_shape (data : List Nat) :
    ∀ d, decode_001_24 data = .ok d → DecodedShape 24 d := by
  intro d h
  unfold decode_001_24 at h
  obtain ⟨solas, _, h⟩ := except_bind_ok h
  exact shape_of_mkDictE 24 _ ["link_id", "air_draught_m", "last_port", "next_port_1",
    "next_port_2", "solas_status", "ice_class", "shaft_power_hp", "vhf_channel",
    "lloyds_ship_type", "gross_tonnage", "laden_ballast", "heavy_oil", "light_oil",
    "diesel", "bunker_oil_tonnes", "persons"] h rfl (by decide) (by decide)

theorem decode_001_27_shape (data : List Nat) :
    ∀ d, decode_001_27 data = .ok d → DecodedShape 27 d := by
  intro d h
  unfold decode_001_27 at h
  obtain ⟨base, hbase, h⟩ := except_bind_ok h
  obtain ⟨wps, _, h⟩ := except_bind_ok h
  simp only [pure, Except.pure, Except.ok.injEq] at h
  subst h
  have hshape : DecodedShape 27 base := shape_of_mkDictE 27 _ ["link_id", "sender_type",
    "route_type", "month", "day", "hour", "minute", "duration_min", "waypoints"]
    hbase rfl (by decide) (by decide)
  have hkeys : base.map Prod.fst = ["fid", "description", "link_id", "sender_type",
      "route_type", "month", "day", "hour", "minute", "duration_min", "waypoints"] := by
    rw [mkDictE_ok_keys hbase]; rfl
  exact shape_aset_existing hshape
    (alook_isSome_of_mem_keys (by rw [hkeys]; decide))
    (by decide) (by decide) (by decide) (by decide)

theorem decode_001_29_shape (data : List Nat) :
    ∀ d, decode_001_29 data = .ok d → DecodedShape 29 d := by
  intro d h
  unfold decode_001_29 at h
  exact shape_of_mkDictE 29 _ ["link_id", "text"] h rfl (by decide) (by decide)

theorem decode_001_31_shape (data : List Nat) :
    ∀ d, decode_001_31 data = .ok d → DecodedShape 31 d := by
  intro d h
  unfold decode_001_31 at h
  obtain ⟨pos, _, h⟩ := except_bind_ok h
  exact shape_of_mkDictE 31 _ ["longitude", "latitude", "position_accuracy", "day",
    "hour", "minute", "wind_ave_kts", "wind_gust_kts", "wind_dir", "wind_gust_dir",
    "air_temp_c", "rel_humidity_pct", "dew_point_c", "air_pressure_hpa",
    "air_pressure_trend", "horz_visibility_nm", "water_level_m", "water_level_trend",
    "surf_cur_speed_kts", "surf_cur_dir", "cur_speed_2_kts", "cur_dir_2",
    "cur_depth_2_m", "cur_speed_3_kts", "cur_dir_3", "cur_depth_3_m", "wave_height_m",
    "wave_period_s", "wave_dir", "swell_height_m", "swell_period_s", "swell_dir",
    "sea_state_beaufort", "water_temp_c", "precip_type", "salinity_ppt", "ice"]
    h rfl (by decide) (by decide)

theorem decode_dac001_shape (fid : Int) (data : List Nat) :
    DecodedShape fid (decode_dac001 fid data) := by
  unfold decode_dac001
  by_cases h11 : fid = 11
  · subst h11; rw [if_pos rfl]; exact runDecoder_shape (decode_001_11_shape data)
  rw [if_neg h11]
  by_cases h13 : fid = 13
  · subst h13; rw [if_pos rfl]; exact runDecoder_shape (decode_001_13_shape data)
  rw [if_neg h13]
  by_cases h15 : fid = 15
  · subst h15; rw [if_pos rfl]; exact runDecoder_shape (decode_001_15_shape data)
  rw [if_neg h15]
  by_cases h16 : fid = 16
  · subst h16; rw [if_pos rfl]; exact runDecoder_shape (decode_001_16_shape data)
  rw [if_neg h16]
  by_cases h17 : fid = 17
  · subst h17; rw [if_pos rfl]; exact runDecoder_shape (decode_001_17_shape data)
  rw [if_neg h17]
  by_cases h19 : fid = 19
  · subst h19; rw [if_pos rfl]; exact runDecoder_shape (decode_001_19_shape data)
  rw [if_neg h19]
  by_cases h21 : fid = 21
  · subst h21; rw [if_pos rfl]; exact runDecoder_shape (decode_001_21_shape data)
  rw [if_neg h21]
  by_cases h22 : fid = 22
  · subst h22; rw [if_pos rfl]; exact runDecoder_shape (decode_001_22_shape data)
  rw [if_neg h22]
  by_cases h24 : fid = 24
  · subst h24; rw [if_pos rfl]; exact runDecoder_shape (decode_001_24_shape data)
  rw [if_neg h24]
  by_cases h27 : fid = 27
  · subst h27; rw [if_pos rfl]; exact runDecoder_shape (decode_001_27_shape data)
  rw [if_neg h27]
  by_cases h29 : fid = 29
  · subst h29; rw [if_pos rfl]; exact runDecoder_shape (decode_001_29_shape data)
  rw [if_neg h29]
  by_cases h31 : fid = 31
  · subst h31; rw [if_pos rfl]; exact runDecoder_shape (decode_001_31_shape data)
  rw [if_neg h31]
  exact shape_err_raw fid _ _

theorem decode_200_10_shape (data : List Nat) :
    ∀ d, decode_200_10 data = .ok d → DecodedShape 10 d := by
  intro d h
  unfold decode_200_10 at h
  obtain ⟨shipType, _, h⟩ := except_bind_ok h
  exact shape_of_mkDictE 10 _ ["eni", "length_m", "beam_m", "ship_type",
    "ship_type_text", "hazard", "draught_cm", "loaded", "speed_quality",
    "course_quality", "heading_quality"] h rfl (by decide) (by decide)

theorem decode_200_21_shape (data : List Nat) :
    ∀ d, decode_200_21 data = .ok d → DecodedShape 21 d := by
  intro d h
  unfold decode_200_21 at h
  exact shape_of_mkDictE 21 _ ["country", "location", "section", "terminal",
    "fairway_section", "fairway_hectometre", "eta_month", "eta_day", "eta_hour",
    "eta_minute", "convoy_count", "convoy_length_m", "convoy_beam_m",
    "convoy_draught_cm", "direction"] h rfl (by decide) (by decide)

theorem decode_200_22_shape (data : List Nat) :
    ∀ d, decode_200_22 data = .ok d → DecodedShape 22 d := by
  intro d h
  unfold decode_200_22 at h
  exact shape_of_mkDictE 22 _ ["country", "location", "section", "terminal",
    "fairway_section", "fairway_hectometre", "rta_month", "rta_day", "rta_hour",
    "rta_minute", "rta_status"] h rfl (by decide) (by decide)

theorem decode_200_23_shape (data : List Nat) :
    ∀ d, decode_200_23 data = .ok d → DecodedShape 23 d := by
  intro d h
  unfold decode_200_23 at h
  exact shape_of_mkDictE 23 _ ["start_year", "start_month", "start_day", "end_year",
    "end_month", "end_day", "start_hour", "start_minute", "end_hour", "end_minute",
    "fairway_section", "fairway_hectometre_from", "fairway_hectometre_to",
    "warning_type", "warning_value"] h rfl (by decide) (by decide)

theorem decode_200_24_shape (data : List Nat) :
    ∀ d, decode_200_24 data = .ok d → DecodedShape 24 d := by
  intro d h
  unfold decode_200_24 at h
  exact shape_of_mkDictE 24 _ ["country", "gauge_id", "level_cm", "day", "hour",
    "minute"] h rfl (by decide) (by decide)

theorem decode_200_40_shape (data : List Nat) :
    ∀ d, decode_200_40 data = .ok d → DecodedShape 40 d := by
  intro d h
  unfold decode_200_40 at h
  obtain ⟨pos, _, h⟩ := except_bind_ok h
  exact shape_of_mkDictE 40 _ ["longitude", "latitude", "form", "orientation",
    "direction", "status"] h rfl (by decide) (by decide)

theorem decode_200_55_shape (data : List Nat) :
    ∀ d, decode_200_55 data = .ok d → DecodedShape 55 d := by
  intro d h
  unfold decode_200_55 at h
  exact shape_of_mkDictE 55 _ ["crew", "passengers", "personnel"] h rfl
    (by decide) (by decide)

theorem decode_dac200_shape (fid : Int) (data : List Nat) :
    DecodedShape fid (decode_dac200 fid data) := by
  unfold decode_dac200
  by_cases h10 : fid = 10
  · subst h10; rw [if_pos rfl]; exact runDecoder_shape (decode_200_10_shape data)
  rw [if_neg h10]
  by_cases h21 : fid = 21
  · subst h21; rw [if_pos rfl]; exact runDecoder_shape (decode_200_21_shape data)
  rw [if_neg h21]
  by_cases h22 : fid = 22
  · subst h22; rw [if_pos rfl]; exact runDecoder_shape (decode_200_22_shape data)
  rw [if_neg h22]
  by_cases h23 : fid = 23
  · subst h23; rw [if_pos rfl]; exact runDecoder_shape (decode_200_23_shape data)
  rw [if_neg h23]
  by_cases h24 : fid = 24
  · subst h24; rw [if_pos rfl]; exact runDecoder_shape (decode_200_24_shape data)
  rw [if_neg h24]
  by_cases h40 : fid = 40
  · subst h40; rw [if_pos rfl]; exact runDecoder_shape (decode_200_40_shape data)
  rw [if_neg h40]
  by_cases h55 : fid = 55
  · subst h55; rw [if_pos rfl]; exact runDecoder_shape (decode_200_55_shape data)
  rw [if_neg h55]
  exact shape_err_raw fid _ _

theorem decode_367_22_shape (data : List Nat) :
    ∀ d, decode_367_22 data = .ok d → DecodedShape 22 d := by
  intro d h
  unfold decode_367_22 at h
  obtain ⟨base, hbase, h⟩ := except_bind_ok h
  obtain ⟨sas, _, h⟩ := except_bind_ok h
  simp only [pure, Except.pure, Except.ok.injEq] at h
  subst h
  have hshape : DecodedShape 22 base := shape_of_mkDictE 22 _ ["version", "link_id",
    "notice_type", "month", "day", "hour", "minute", "duration_min", "sub_areas"]
    hbase rfl (by decide) (by decide)
  have hkeys : base.map Prod.fst = ["fid", "description", "version", "link_id",
      "notice_type", "month", "day", "hour", "minute", "duration_min", "sub_areas"] := by
    rw [mkDictE_ok_keys hbase]; rfl
  exact shape_aset_existing hshape
    (alook_isSome_of_mem_keys (by rw [hkeys]; decide))
    (by decide) (by decide) (by decide) (by decide)

theorem decode_367_33_shape (data : List Nat) :
    ∀ d, decode_367_33 data = .ok d → DecodedShape 33 d := by
  intro d h
  unfold decode_367_33 at h
  obtain ⟨base, hbase, h⟩ := except_bind_ok h
  obtain ⟨rpts, _, h⟩ := except_bind_ok h
  simp only [pure, Except.pure, Except.ok.injEq] at h
  subst h
  have hshape : DecodedShape 33 base := shape_of_mkDictE 33 _ ["reports"]
    hbase rfl (by decide) (by decide)
  have hkeys : base.map Prod.fst = ["fid", "description", "reports"] := by
    rw [mkDictE_ok_keys hbase]; rfl
  exact shape_aset_existing hshape
    (alook_isSome_of_mem_keys (by rw [hkeys]; decide))
    (by decide) (by decide) (by decide) (by decide)

theorem decode_dac367_shape (fid : Int) (data : List Nat) :
    DecodedShape fid (decode_dac367 fid data) := by
  unfold decode_dac367
  by_cases h22 : fid = 22
  · subst h22; rw [if_pos rfl]; exact runDecoder_shape (decode_367_22_shape data)
  rw [if_neg h22]
  by_cases h33 : fid = 33
  · subst h33; rw [if_pos rfl]; exact runDecoder_shape (decode_367_33_shape data)
  rw [if_neg h33]
  exact shape_err_raw fid _ _

/-- Shape of the dispatched decoder result, whatever the dac. -/
theorem dispatch_shape (dac fid : Int) (data : List Nat) :
    DecodedShape fid (
      if dac = 1 then decode_dac001 fid data
      else if dac = 200 then decode_dac200 fid data
      else if dac = 366 ∨ dac = 367 then decode_dac367 fid data
      else if dac = 316 then decode_dac367 fid data
      else if dac = 235 ∨ dac = 250 then
        [("error", .vStr ("DAC " ++ toString dac ++ " not fully implemented")),
         ("raw", .vStr (bytesHex data))]
      else [("error", .vStr ("Unknown DAC " ++ toString dac)), ("raw", .vStr (bytesHex data))]) := by
  split
  · exact decode_dac001_shape fid data
  · split
    · exact decode_dac200_shape fid data
    · split
      · exact decode_dac367_shape fid data
      · split
        · exact decode_dac367_shape fid data
        · split
          · exact shape_err_raw fid _ _
          · exact shape_err_raw fid _ _

/-- `decode_binary_payload` on a non-empty payload is the base metadata dict
updated with the dispatched decoder result. -/
theorem decode_binary_payload_nonempty (dac fid : Int) (data : List Nat)
    (h : data.length ≠ 0) :
    decode_binary_payload dac fid data =
      dictUpdate [("dac", .vInt dac), ("fid", .vInt fid)] (
        if dac = 1 then decode_dac001 fid data
        else if dac = 200 then decode_dac200 fid data
        else if dac = 366 ∨ dac = 367 then decode_dac367 fid data
        else if dac = 316 then decode_dac367 fid data
        else if dac = 235 ∨ dac = 250 then
          [("error", .vStr ("DAC " ++ toString dac ++ " not fully implemented")),
           ("raw", .vStr (bytesHex data))]
        else [("error", .vStr ("Unknown DAC " ++ toString dac)),
              ("raw", .vStr (bytesHex data))]) := by
  unfold decode_binary_payload
  rw [if_neg h]

/-- The lookups every claim about the merged result needs, given the shape of
the decoded part. -/
theorem result_shape_lookups (dac fid : Int) {decoded : Dict}
    (hs : DecodedShape fid decoded) :
    alook (dictUpdate [("dac", .vInt dac), ("fid", .vInt fid)] decoded) ("dac")
        = some (.vInt dac) ∧
    alook (dictUpdate [("dac", .vInt dac), ("fid", .vInt fid)] decoded) ("fid")
        = some (.vInt fid) ∧
    (alook (dictUpdate [("dac", .vInt dac), ("fid", .vInt fid)] decoded) ("error") ≠ none ∨
     alook (dictUpdate [("dac", .vInt dac), ("fid", .vInt fid)] decoded) ("description") ≠ none) := by
  have hdac_ne : ∀ p ∈ decoded, p.1 ≠ "dac" := alook_eq_none_iff.mp hs.no_dac
  refine ⟨?_, ?_, ?_⟩
  · rw [alook_dictUpdate_of_not_mem _ _ _ hdac_ne]; simp [alook]
  · rcases hs.fid_ok with hf | hf
    · rw [alook_dictUpdate_of_not_mem _ _ _ (alook_eq_none_iff.mp hf)]; simp [alook]
    · rw [alook_dictUpdate_of_mem _ _ _ _ hs.nodup hf]
  · rcases hs.tagged with ht | ht
    · left
      obtain ⟨v, hv⟩ := Option.ne_none_iff_exists'.mp ht
      rw [alook_dictUpdate_of_mem _ _ _ _ hs.nodup hv]
      simp
    · right
      obtain ⟨v, hv⟩ := Option.ne_none_iff_exists'.mp ht
      rw [alook_dictUpdate_of_mem _ _ _ _ hs.nodup hv]
      simp

/-! ## Claim theorems: top-level decoder (C2, C3, C4) -/

/-- C2: for every dac and fid, a payload that is empty after conversion —
empty bytes, or the empty hex string (which `bytes.fromhex` parses to empty
bytes) — produces exactly the error result
`{"error": "Empty payload", "dac": dac, "fid": fid}`. In the definition of
`decode_binary_payload` this branch returns before the DAC dispatch is
reached, so no region decoder is consulted. -/
theorem c2_empty_payload_error :
    (∀ dac fid : Int, decode_binary_payload dac fid [] =
      [("error", .vStr ("Empty payload")), ("dac", .vInt dac), ("fid", .vInt fid)]) ∧
    (∀ (dac fid : Int) (pad : Nat), decode_binary_payload_str dac fid "" pad =
      [("error", .vStr ("Empty payload")), ("dac", .vInt dac), ("fid", .vInt fid)]) :=
  ⟨fun _ _ => rfl, fun _ _ _ => rfl⟩

/-- C3 (counterexample): dac 999 is outside `{1, 200, 316, 366, 367}` and gets
the `"Unknown DAC"` error variant, but dac 235 (also outside that set) gets
`"DAC 235 not fully implemented"` instead — the claim's "every dac outside
{1, 200, 316, 366, 367}" is wrong for the special-cased DACs 235 and 250. -/
theorem c3_counterexample_dac235 :
    alook (decode_binary_payload 235 1 [0xAB]) ("error")
      = some (.vStr ("DAC 235 not fully implemented")) ∧
    ("DAC 235 not fully implemented" ≠ "Unknown DAC " ++ toString (235 : Int)) :=
  ⟨rfl, by decide⟩

/-- C3 (amended): for every dac outside `{1, 200, 316, 366, 367}` **and also
outside the partially-implemented set `{235, 250}`**, and every fid and
non-empty payload, the result carries `error = "Unknown DAC <dac>"` and
`raw` equal to the lowercase hex of the payload bytes. -/
theorem c3_unknown_dac_error (dac fid : Int) (data : List Nat)
    (hdac : dac ∉ ([1, 200, 316, 366, 367, 235, 250] : List Int)) (hdata : data ≠ []) :
    alook (decode_binary_payload dac fid data) ("error")
        = some (.vStr ("Unknown DAC " ++ toString dac)) ∧
    alook (decode_binary_payload dac fid data) ("raw") = some (.vStr (bytesHex data)) := by
  simp only [List.mem_cons, List.not_mem_nil, or_false, not_or] at hdac
  obtain ⟨h1, h200, h316, h366, h367, h235, h250⟩ := hdac
  have hlen : data.length ≠ 0 := fun h => hdata (List.length_eq_zero.mp h)
  have hdecoded : decode_binary_payload dac fid data =
      dictUpdate [("dac", .vInt dac), ("fid", .vInt fid)]
        [("error", .vStr ("Unknown DAC " ++ toString dac)), ("raw", .vStr (bytesHex data))] := by
    unfold decode_binary_payload
    rw [if_neg hlen]
    rw [if_neg h1, if_neg h200, if_neg (by simp [h366, h367]), if_neg h316,
      if_neg (by simp [h235, h250])]
  rw [hdecoded]
  constructor
  · exact alook_dictUpdate_of_mem _ _ _ _ (by simp) (by simp [alook])
  · exact alook_dictUpdate_of_mem _ _ _ _ (by simp) (by simp [alook])

/-- C3 (witness): the amended theorem at the claim's own example,
`decode_binary_payload(dac=999, fid=1, data=bytes([0xAB, 0xCD]))`, whose `raw`
is `"abcd"`. -/
theorem c3_unknown_dac_error_witness :
    ((999 : Int) ∉ ([1, 200, 316, 366, 367, 235, 250] : List Int)) ∧
    ([0xAB, 0xCD] ≠ ([] : List Nat)) ∧
    bytesHex [0xAB, 0xCD] = "abcd" ∧
    (alook (decode_binary_payload 999 1 [0xAB, 0xCD]) ("error")
        = some (.vStr ("Unknown DAC " ++ toString (999 : Int))) ∧
      alook (decode_binary_payload 999 1 [0xAB, 0xCD]) ("raw")
        = some (.vStr (bytesHex [0xAB, 0xCD]))) :=
  ⟨by decide, by decide, by decide,
    c3_unknown_dac_error 999 1 [0xAB, 0xCD] (by decide) (by decide)⟩

/-- C4 (counterexample): on `dac=1, fid=16, data=bytes([0x57, 0xC0])` the
FID-15 decoder reads the 11-bit unsigned field at bit 0, which is 702 — not
350 — so `air_draught_m` is `702 / 10 = 70.2`, not the claimed `35.0`. (The
source test's comment miscomputes the bits of 350: `0b01010111110` is 702.) -/
theorem c4_counterexample_air_draught :
    alook (decode_binary_payload 1 15 [0x57, 0xC0]) ("air_draught_m")
      = some (.vRat ((702 : ℚ) / 10)) ∧
    ((702 : ℚ) / 10 ≠ 35) :=
  ⟨rfl, by norm_num⟩

/-- C4 (amended): `decode_binary_payload(dac=1, fid=15, data=bytes([0x57, 0xC0]))`
returns a result in which `air_draught_m` equals `70.2` (the FID-15 decoder
reads an 11-bit unsigned air-draught field at bit 0, here 702, and divides by
10). -/
theorem c4_air_draught_70_2 :
    extractUint [0x57, 0xC0] 0 11 = 702 ∧
    alook (decode_binary_payload 1 15 [0x57, 0xC0]) ("air_draught_m")
      = some (.vRat ((702 : ℚ) / 10)) ∧
    ((702 : ℚ) / 10 = 351 / 5) :=
  ⟨by decide, rfl, by norm_num⟩

/-! ## Claim theorems: C1 and C9 -/

/-- C1: for every dac and fid and every non-empty bytes payload, the result of
`decode_binary_payload` carries `"dac"` and `"fid"` bound to the input values,
merged with either decoded fields (witnessed by the `"description"` tag every
decoded variant carries) or an `"error"` subfield. The embedding of
`decode_binary_payload` is a total function — every internal exception of a
layout decode is caught by the region dispatcher and converted to the error
dictionary — so no exception reaches the caller, even when the dispatched
region decoder's layout decode fails internally. -/
theorem c1_result_carries_dac_fid (dac fid : Int) (data : List Nat) (h : data ≠ []) :
    alook (decode_binary_payload dac fid data) ("dac") = some (.vInt dac) ∧
    alook (decode_binary_payload dac fid data) ("fid") = some (.vInt fid) ∧
    (alook (decode_binary_payload dac fid data) ("error") ≠ none ∨
     alook (decode_binary_payload dac fid data) ("description") ≠ none) := by
  have hlen : data.length ≠ 0 := fun hc => h (List.length_eq_zero.mp hc)
  rw [decode_binary_payload_nonempty dac fid data hlen]
  exact result_shape_lookups dac fid (dispatch_shape dac fid data)

/-- C1 (witness): the theorem at `dac=1, fid=16, data=bytes([0x04, 0xB0])`. -/
theorem c1_result_carries_dac_fid_witness :
    ([0x04, 0xB0] ≠ ([] : List Nat)) ∧
    (alook (decode_binary_payload 1 16 [0x04, 0xB0]) ("dac") = some (.vInt 1) ∧
     alook (decode_binary_payload 1 16 [0x04, 0xB0]) ("fid") = some (.vInt 16) ∧
     (alook (decode_binary_payload 1 16 [0x04, 0xB0]) ("error") ≠ none ∨
      alook (decode_binary_payload 1 16 [0x04, 0xB0]) ("description") ≠ none)) :=
  ⟨by decide, c1_result_carries_dac_fid 1 16 [0x04, 0xB0] (by decide)⟩

/-- C9: DAC 366 and DAC 316 dispatch to the same `decode_dac367` decoders as
DAC 367, so on every fid and non-empty payload their result agrees with the
DAC-367 result at every key except `"dac"`, which carries the input dac. -/
theorem c9_dac366_316_share_dac367 (d fid : Int) (data : List Nat)
    (hd : d = 366 ∨ d = 316) (hdata : data ≠ []) :
    alook (decode_binary_payload d fid data) ("dac") = some (.vInt d) ∧
    ∀ k : String, k ≠ "dac" →
      alook (decode_binary_payload d fid data) k
        = alook (decode_binary_payload 367 fid data) k := by
  have hlen : data.length ≠ 0 := fun hc => hdata (List.length_eq_zero.mp hc)
  have hform : decode_binary_payload d fid data =
      dictUpdate [("dac", .vInt d), ("fid", .vInt fid)] (decode_dac367 fid data) := by
    rw [decode_binary_payload_nonempty d fid data hlen]
    rcases hd with rfl | rfl
    · rw [if_neg (by decide), if_neg (by decide), if_pos (by decide)]
    · rw [if_neg (by decide), if_neg (by decide), if_neg (by decide), if_pos rfl]
  have h367 : decode_binary_payload 367 fid data =
      dictUpdate [("dac", .vInt 367), ("fid", .vInt fid)] (decode_dac367 fid data) := by
    rw [decode_binary_payload_nonempty 367 fid data hlen]
    rw [if_neg (by decide), if_neg (by decide), if_pos (by decide)]
  constructor
  · rw [hform]
    exact (result_shape_lookups d fid (decode_dac367_shape fid data)).1
  · intro k hk
    rw [hform, h367]
    have hsym : ("dac" : String) ≠ k := fun hh => hk hh.symm
    exact alook_dictUpdate_congr _ _ _ _ (by simp [alook, hsym])

/-- C9 (witness): the theorem at `d = 366, fid = 1, data = [0x00]`. -/
theorem c9_dac366_316_share_dac367_witness :
    ((366 : Int) = 366 ∨ (366 : Int) = 316) ∧ ([0x00] ≠ ([] : List Nat)) ∧
    (alook (decode_binary_payload 366 1 [0x00]) ("dac") = some (.vInt 366) ∧
     ∀ k : String, k ≠ "dac" →
       alook (decode_binary_payload 366 1 [0x00]) k
         = alook (decode_binary_payload 367 1 [0x00]) k) :=
  ⟨Or.inl rfl, by decide, c9_dac366_316_share_dac367 366 1 [0x00] (Or.inl rfl) (by decide)⟩

/-! ## Claim theorems: C8 (get_string) -/

theorem mapM_ok {α β : Type} {l : List α} {F : α → Except PyErr β} {G : α → β}
    (h : ∀ x ∈ l, F x = .ok (G x)) : l.mapM F = .ok (l.map G) := by
  induction l with
  | nil => rfl
  | cons a rest ih =>
    rw [List.mapM_cons, h a (List.mem_cons_self a rest),
      ih (fun x hx => h x (List.mem_cons_of_mem a hx))]
    rfl

theorem head?_dropWhile_not {α : Type} (p : α → Bool) (l : List α) :
    ∀ c, (l.dropWhile p).head? = some c → p c = false := by
  induction l with
  | nil => intro c h; simp [List.dropWhile] at h
  | cons a rest ih =>
    intro c h
    rw [List.dropWhile_cons] at h
    by_cases hp : p a = true
    · rw [if_pos hp] at h
      exact ih c h
    · rw [if_neg hp] at h
      simp only [List.head?_cons, Option.some.injEq] at h
      subst h
      exact Bool.not_eq_true _ |>.mp hp

theorem bind_mapM_ok {α β γ : Type} {l : List α} {F : α → Except PyErr β} {G : α → β}
    (h : ∀ x ∈ l, F x = .ok (G x)) (g : List β → γ) :
    (l.mapM F >>= fun xs => pure (g xs) : Except PyErr γ) = .ok (g (l.map G)) := by
  rw [mapM_ok h]
  rfl

/-- `pyRstrip` splits a list into the kept part and an all-padding suffix, and
leaves no padding character at the end of the kept part. -/
theorem pyRstrip_spec (l : List Char) :
    ∃ dropped : List Char,
      l = pyRstrip l ++ dropped ∧
      (∀ c ∈ dropped, c = '@' ∨ c = ' ') ∧
      (∀ c, (pyRstrip l).getLast? = some c → ¬(c = '@' ∨ c = ' ')) := by
  refine ⟨(l.reverse.takeWhile (fun c => decide (c = '@' ∨ c = ' '))).reverse, ?_, ?_, ?_⟩
  · conv_lhs => rw [← List.reverse_reverse l,
      ← List.takeWhile_append_dropWhile (p := fun c => decide (c = '@' ∨ c = ' '))
        (l := l.reverse)]
    rw [List.reverse_append]
    rfl
  · intro c hc
    rw [List.mem_reverse] at hc
    have := List.mem_takeWhile_imp hc
    simpa using this
  · intro c hc
    rw [pyRstrip, List.getLast?_reverse] at hc
    have := head?_dropWhile_not _ _ _ hc
    simpa using this

/-- C8: `get_string` decodes `width/6` six-bit characters through `sixBitChar`
(values 0–31 map to ASCII 64+value, values 32–63 map directly) and strips all
trailing `'@'` and space characters while preserving everything before them;
a width that is not a multiple of 6 raises a `ValueError`. -/
theorem c8_get_string_strips_padding (data : List Nat) (offset width : Nat) :
    (width % 6 ≠ 0 → ∃ msg, get_string data offset width = .error (.valueError msg)) ∧
    (width % 6 = 0 → offset + width ≤ 8 * data.length →
      ∃ kept dropped : List Char,
        get_string data offset width = .ok (String.mk kept) ∧
        (List.range (width / 6)).map
            (fun i => sixBitChar (extractUint data (offset + i * 6) 6)) = kept ++ dropped ∧
        (∀ c ∈ dropped, c = '@' ∨ c = ' ') ∧
        (∀ c, kept.getLast? = some c → ¬(c = '@' ∨ c = ' '))) := by
  constructor
  · intro h6
    refine ⟨"String width must be multiple of 6, got " ++ toString width, ?_⟩
    unfold get_string
    rw [if_pos h6]
    rfl
  · intro h6 hbound
    obtain ⟨dropped, hsplit, hdrop, hlast⟩ :=
      pyRstrip_spec ((List.range (width / 6)).map
        (fun i => sixBitChar (extractUint data (offset + i * 6) 6)))
    refine ⟨pyRstrip ((List.range (width / 6)).map
      (fun i => sixBitChar (extractUint data (offset + i * 6) 6))), dropped, ?_,
      hsplit, hdrop, hlast⟩
    unfold get_string
    rw [if_neg (by omega)]
    refine bind_mapM_ok ?_ (fun chars => String.mk (pyRstrip chars))
    intro i hi
    rw [List.mem_range] at hi
    have hgu : get_uint data (offset + i * 6) 6
        = .ok (extractUint data (offset + i * 6) 6) := by
      unfold get_uint
      rw [if_neg (by omega), if_neg (by omega)]
    rw [hgu]
    rfl

/-- C8 (witness): the theorem at a buffer whose 7 six-bit groups decode to
`"AB  C@@"`, together with the resulting concrete string `"AB  C"`. -/
theorem c8_get_string_strips_padding_witness :
    ((42 % 6 = 0 ∧ 0 + 42 ≤ 8 * [0x04, 0x28, 0x20, 0x0C, 0x00, 0x00].length) ∧
      get_string [0x04, 0x28, 0x20, 0x0C, 0x00, 0x00] 0 42 = .ok "AB  C") ∧
    ((42 % 6 ≠ 0 → ∃ msg, get_string [0x04, 0x28, 0x20, 0x0C, 0x00, 0x00] 0 42
        = .error (.valueError msg)) ∧
     (42 % 6 = 0 → 0 + 42 ≤ 8 * [0x04, 0x28, 0x20, 0x0C, 0x00, 0x00].length →
      ∃ kept dropped : List Char,
        get_string [0x04, 0x28, 0x20, 0x0C, 0x00, 0x00] 0 42 = .ok (String.mk kept) ∧
        (List.range (42 / 6)).map
            (fun i => sixBitChar (extractUint [0x04, 0x28, 0x20, 0x0C, 0x00, 0x00] (0 + i * 6) 6))
          = kept ++ dropped ∧
        (∀ c ∈ dropped, c = '@' ∨ c = ' ') ∧
        (∀ c, kept.getLast? = some c → ¬(c = '@' ∨ c = ' ')))) :=
  ⟨⟨by decide, rfl⟩, c8_get_string_strips_padding [0x04, 0x28, 0x20, 0x0C, 0x00, 0x00] 0 42⟩

/-! ## MultiPartBuffer lemmas -/

/-- `add` on a well-formed multi-part sentence, reduced to its buffered
branch. -/
theorem add_parsed (st : MultiPartBuffer) (nmea : List Char) (rawId : Int)
    (ts : List Char) (now : ℚ) (l : List (List Char)) (total seqNum : Int)
    (seqId channel : List Char)
    (hs : splitComma nmea = l) (hlen : ¬ l.length < 7)
    (hp : pyInt (l.getD 1 []) = some total) (hq : pyInt (l.getD 2 []) = some seqNum)
    (hid : l.getD 3 [] = seqId) (hch : l.getD 4 [] = channel)
    (hne1 : total ≠ 1) :
    st.add nmea rawId ts now =
      (let key : RKey := (seqId, channel, total)
       let st1 := st.cleanup now
       let st2 :=
         if (alook st1.buffer key).isSome then st1
         else { st1 with buffer := aset key [] st1.buffer,
                         timestamps := aset key now st1.timestamps }
       let entry := aset seqNum (nmea, rawId, ts) ((alook st2.buffer key).getD [])
       let st3 := { st2 with buffer := aset key entry st2.buffer }
       if (entry.length : Int) = total then
         match MultiPartBuffer.assemble entry total with
         | some frags =>
           .ok (some (frags.map (fun f => f.1), frags.map (fun f => f.2.1), ts),
             { st3 with buffer := aerase key st3.buffer,
                        timestamps := aerase key st3.timestamps })
         | none => .error .keyError
       else .ok (none, st3)) := by
  unfold MultiPartBuffer.add
  rw [hs, if_neg hlen, hp, hq, hid, hch]
  dsimp only
  rw [if_neg hne1]

/-- `add` on a single-part sentence returns it immediately, no state change. -/
theorem add_single (st : MultiPartBuffer) (nmea : List Char) (rawId : Int)
    (ts : List Char) (now : ℚ) (l : List (List Char)) (seqNum : Int)
    (hs : splitComma nmea = l) (hlen : ¬ l.length < 7)
    (hp : pyInt (l.getD 1 []) = some 1) (hq : pyInt (l.getD 2 []) = some seqNum) :
    st.add nmea rawId ts now = .ok (some ([nmea], [rawId], ts), st) := by
  unfold MultiPartBuffer.add
  rw [hs, if_neg hlen, hp, hq]
  rfl

/-- Cleanup is the identity on the empty buffer. -/
theorem cleanup_make (tmo now : ℚ) :
    (MultiPartBuffer.make tmo).cleanup now = MultiPartBuffer.make tmo := rfl

/-! ## Claim theorems: C10 (out-of-range part numbers raise KeyError) -/

/-- C10: buffering a part number outside `1..total_parts` (part 0 alongside
part 1 of a `total_parts = 2` group) makes the completing `add` raise a
`KeyError` while assembling parts `1..total_parts` in ascending order; the
handler catches only `ValueError` and `IndexError`, so the `KeyError` escapes
tmo the caller (`.error .keyError` in the embedding). -/
theorem c10_part_zero_keyerror_escapes
    (seqId channel s₁ s₂ : List Char) (l₁ l₂ : List (List Char))
    (r₁ r₂ : Int) (t₁ t₂ : List Char) (n₁ n₂ tmo : ℚ)
    (hnow : n₂ - n₁ ≤ tmo)
    (hs₁ : splitComma s₁ = l₁) (hlen₁ : ¬ l₁.length < 7)
    (hp₁ : pyInt (l₁.getD 1 []) = some 2) (hq₁ : pyInt (l₁.getD 2 []) = some 0)
    (hid₁ : l₁.getD 3 [] = seqId) (hch₁ : l₁.getD 4 [] = channel)
    (hs₂ : splitComma s₂ = l₂) (hlen₂ : ¬ l₂.length < 7)
    (hp₂ : pyInt (l₂.getD 1 []) = some 2) (hq₂ : pyInt (l₂.getD 2 []) = some 1)
    (hid₂ : l₂.getD 3 [] = seqId) (hch₂ : l₂.getD 4 [] = channel) :
    (MultiPartBuffer.make tmo).add s₁ r₁ t₁ n₁ =
      .ok (none, ⟨[((seqId, channel, 2), [(0, (s₁, r₁, t₁))])],
                  [((seqId, channel, 2), n₁)], tmo⟩) ∧
    (MultiPartBuffer.add ⟨[((seqId, channel, 2), [(0, (s₁, r₁, t₁))])],
        [((seqId, channel, 2), n₁)], tmo⟩ s₂ r₂ t₂ n₂) = .error .keyError := by
  constructor
  · rw [add_parsed _ _ _ _ _ l₁ 2 0 seqId channel hs₁ hlen₁ hp₁ hq₁ hid₁ hch₁ (by decide)]
    rw [cleanup_make]
    simp [MultiPartBuffer.make, alook, aset]
  · rw [add_parsed _ _ _ _ _ l₂ 2 1 seqId channel hs₂ hlen₂ hp₂ hq₂ hid₂ hch₂ (by decide)]
    have hfresh : ¬(n₂ - n₁ > tmo) := not_lt.mpr hnow
    have hclean : MultiPartBuffer.cleanup
        ⟨[((seqId, channel, 2), [(0, (s₁, r₁, t₁))])], [((seqId, channel, 2), n₁)], tmo⟩ n₂ =
        ⟨[((seqId, channel, 2), [(0, (s₁, r₁, t₁))])], [((seqId, channel, 2), n₁)], tmo⟩ := by
      simp [MultiPartBuffer.cleanup, hfresh]
    rw [hclean]
    simp [alook, aset, MultiPartBuffer.assemble, List.range_succ, List.mapM.loop]

/-- C10 (witness): the theorem at concrete sentences
`"!AIVDM,2,0,3,B,aaa,0*00"` and `"!AIVDM,2,1,3,B,bbb,0*11"`. -/
theorem c10_part_zero_keyerror_escapes_witness :
    ((0 : ℚ) - 0 ≤ 60) ∧
    ((MultiPartBuffer.make 60).add ("!AIVDM,2,0,3,B,aaa,0*00").data 1 ("t1").data 0 =
      .ok (none, ⟨[((("3").data, ("B").data, 2), [(0, (("!AIVDM,2,0,3,B,aaa,0*00").data, 1, ("t1").data))])],
                  [((("3").data, ("B").data, 2), 0)], 60⟩) ∧
     (MultiPartBuffer.add ⟨[((("3").data, ("B").data, 2),
          [(0, (("!AIVDM,2,0,3,B,aaa,0*00").data, 1, ("t1").data))])],
        [((("3").data, ("B").data, 2), 0)], 60⟩ ("!AIVDM,2,1,3,B,bbb,0*11").data 2 ("t2").data 0)
       = .error .keyError) :=
  ⟨by simp,
    c10_part_zero_keyerror_escapes ("3").data ("B").data
      ("!AIVDM,2,0,3,B,aaa,0*00").data ("!AIVDM,2,1,3,B,bbb,0*11").data
      [("!AIVDM").data, ("2").data, ("0").data, ("3").data, ("B").data, ("aaa").data, ("0*00").data]
      [("!AIVDM").data, ("2").data, ("1").data, ("3").data, ("B").data, ("bbb").data, ("0*11").data]
      1 2 ("t1").data ("t2").data 0 0 60
      (by simp) (by decide) (by decide) (by decide) (by decide) (by decide) (by decide)
      (by decide) (by decide) (by decide) (by decide) (by decide) (by decide)⟩

/-! ## Claim theorems: C6 (eviction sweep) -/

theorem mem_aset {κ α : Type} [DecidableEq κ] {k : κ} {v : α} {l : List (κ × α)}
    {p : κ × α} (h : p ∈ aset k v l) : p ∈ l ∨ p = (k, v) := by
  induction l with
  | nil => simpa [aset] using h
  | cons q rest ih =>
    by_cases hq : q.1 = k
    · rw [aset, if_pos hq] at h
      rcases List.mem_cons.mp h with h | h
      · exact Or.inr h
      · exact Or.inl (List.mem_cons_of_mem q h)
    · rw [aset, if_neg hq] at h
      rcases List.mem_cons.mp h with h | h
      · exact Or.inl (h ▸ List.mem_cons_self q rest)
      · rcases ih h with h | h
        · exact Or.inl (List.mem_cons_of_mem q h)
        · exact Or.inr h

theorem mem_foldl_aerase {κ α : Type} [DecidableEq κ] {keys : List κ}
    {l : List (κ × α)} {p : κ × α}
    (h : p ∈ keys.foldl (fun m k => aerase k m) l) : p ∈ l ∧ p.1 ∉ keys := by
  induction keys generalizing l with
  | nil => exact ⟨h, List.not_mem_nil _⟩
  | cons k₀ rest ih =>
    obtain ⟨hmem, hnot⟩ := ih h
    have hne : p.1 ≠ k₀ := by
      have := List.mem_filter.mp hmem
      simpa using this.2
    exact ⟨mem_of_mem_aerase hmem, by
      intro hc
      rcases List.mem_cons.mp hc with hc | hc
      · exact hne hc
      · exact hnot hc⟩

/-- Every entry surviving `_cleanup(now)` is within the timeout of `now`. -/
theorem cleanup_timestamps_fresh (st : MultiPartBuffer) (now : ℚ) :
    ∀ k t, (k, t) ∈ (st.cleanup now).timestamps → ¬(now - t > st.timeout) := by
  intro k t hmem hstale
  obtain ⟨hin, hnot⟩ := mem_foldl_aerase hmem
  apply hnot
  have : (k, t) ∈ st.timestamps.filter (fun kt => decide (now - kt.2 > st.timeout)) :=
    List.mem_filter.mpr ⟨hin, by simpa using hstale⟩
  exact List.mem_map_of_mem (fun kt => kt.1) this

/-- C6 (counterexample): the sweep does *not* run on every `add`. Reachable
scenario: buffer part 1 of a 2-part group at time 0 (timeout 60), then at time
1000 add a single-part sentence — that call returns its completed single-part
group without running the sweep, and the stale entry (age 1000 > 60) is still
in the map afterwards. -/
theorem c6_counterexample_single_part_skips_sweep :
    (MultiPartBuffer.make 60).add ("!AIVDM,2,1,3,B,aaa,0*00").data 1 ("t1").data 0 =
      .ok (none, ⟨[((("3").data, ("B").data, 2), [(1, (("!AIVDM,2,1,3,B,aaa,0*00").data, 1, ("t1").data))])],
                  [((("3").data, ("B").data, 2), 0)], 60⟩) ∧
    (MultiPartBuffer.add ⟨[((("3").data, ("B").data, 2),
        [(1, (("!AIVDM,2,1,3,B,aaa,0*00").data, 1, ("t1").data))])],
        [((("3").data, ("B").data, 2), 0)], 60⟩ ("!AIVDM,1,1,,A,ccc,0*22").data 5 ("t3").data 1000 =
      .ok (some ([("!AIVDM,1,1,,A,ccc,0*22").data], [5], ("t3").data),
        ⟨[((("3").data, ("B").data, 2), [(1, (("!AIVDM,2,1,3,B,aaa,0*00").data, 1, ("t1").data))])],
         [((("3").data, ("B").data, 2), 0)], 60⟩)) ∧
    ((1000 : ℚ) - 0 > 60) :=
  ⟨rfl, rfl, by norm_num⟩

/-- C6 (amended): the eviction sweep runs on every *buffered multi-part* call
to `add` — one whose sentence splits into at least 7 fields with integer part
counters and `total_parts ≠ 1`. After such a call returns (with a nonnegative
timeout), every entry remaining in the pending map has a creation timestamp no
older than the timeout before that call's time. Single-part and malformed
adds return before the sweep and do not evict. -/
theorem c6_sweep_on_buffered_add (st : MultiPartBuffer) (nmea : List Char)
    (rawId : Int) (ts : List Char) (now : ℚ) (l : List (List Char))
    (total seqNum : Int) (seqId channel : List Char)
    (hs : splitComma nmea = l) (hlen : ¬ l.length < 7)
    (hp : pyInt (l.getD 1 []) = some total) (hq : pyInt (l.getD 2 []) = some seqNum)
    (hid : l.getD 3 [] = seqId) (hch : l.getD 4 [] = channel) (hne1 : total ≠ 1)
    (hto : 0 ≤ st.timeout)
    (res : Option (List (List Char) × List Int × List Char)) (st' : MultiPartBuffer)
    (hadd : st.add nmea rawId ts now = .ok (res, st')) :
    ∀ k t, (k, t) ∈ st'.timestamps → ¬(now - t > st.timeout) := by
  rw [add_parsed st nmea rawId ts now l total seqNum seqId channel
    hs hlen hp hq hid hch hne1] at hadd
  dsimp only at hadd
  have hfresh := cleanup_timestamps_fresh st now
  split at hadd
  · -- key already present: st2 = cleanup st now
    split at hadd
    · -- completion branch
      split at hadd
      · cases hadd
        intro k t hmem
        exact hfresh k t (mem_of_mem_aerase hmem)
      · cases hadd
    · cases hadd
      intro k t hmem
      exact hfresh k t hmem
  · -- key created: timestamps get (key, now) added
    split at hadd
    · split at hadd
      · cases hadd
        intro k t hmem
        rcases mem_aset (mem_of_mem_aerase hmem) with hmem' | hmem'
        · exact hfresh k t hmem'
        · cases hmem'
          simp only [sub_self]
          exact fun hc => absurd hto (not_le.mpr hc)
      · cases hadd
    · cases hadd
      intro k t hmem
      rcases mem_aset hmem with hmem' | hmem'
      · exact hfresh k t hmem'
      · cases hmem'
        simp only [sub_self]
        exact fun hc => absurd hto (not_le.mpr hc)

/-- C6 (witness): the amended theorem on a concrete buffered add from the
empty buffer at time 0 with timeout 60. -/
theorem c6_sweep_on_buffered_add_witness :
    ((0 : ℚ) ≤ 60) ∧
    (∀ k t, (k, t) ∈ (⟨[((("3").data, ("B").data, 2),
          [(1, (("!AIVDM,2,1,3,B,aaa,0*00").data, 1, ("t1").data))])],
        [((("3").data, ("B").data, 2), 0)], 60⟩ : MultiPartBuffer).timestamps →
      ¬((0 : ℚ) - t > 60)) :=
  ⟨by norm_num,
    c6_sweep_on_buffered_add (MultiPartBuffer.make 60) ("!AIVDM,2,1,3,B,aaa,0*00").data
      1 ("t1").data 0
      [("!AIVDM").data, ("2").data, ("1").data, ("3").data, ("B").data, ("aaa").data, ("0*00").data]
      2 1 ("3").data ("B").data
      (by decide) (by decide) (by decide) (by decide) (by decide) (by decide) (by decide)
      (by norm_num [MultiPartBuffer.make]) none _ rfl⟩

/-! ## Claim theorems: C5 (multi-part completion) -/

theorem option_mapM_some {α β : Type} {l : List α} {F : α → Option β} {G : α → β}
    (h : ∀ x ∈ l, F x = some (G x)) : l.mapM F = some (l.map G) := by
  induction l with
  | nil => rfl
  | cons a rest ih =>
    rw [List.mapM_cons, h a (List.mem_cons_self a rest),
      ih (fun x hx => h x (List.mem_cons_of_mem a hx))]
    rfl

theorem alook_append {κ α : Type} [DecidableEq κ] (l₁ l₂ : List (κ × α)) (k : κ) :
    alook (l₁ ++ l₂) k = ((alook l₁ k).rec (alook l₂ k) (fun v => some v) : Option α) := by
  induction l₁ with
  | nil => simp [alook]
  | cons p rest ih =>
    by_cases hp : p.1 = k
    · simp [alook, hp]
    · simp [alook, hp, ih]

theorem alook_map_range {β : Type} (g : Nat → β) (pm : Nat → Int) (N : Nat) :
    ∀ m₀ : Nat, (∀ a < N, ∀ b < N, pm a = pm b → a = b) → m₀ < N →
    alook ((List.range N).map (fun m => (pm m, g m))) (pm m₀) = some (g m₀) := by
  induction N with
  | zero => intro m₀ _ hm; omega
  | succ N ih =>
    intro m₀ hinj hm
    rw [List.range_succ, List.map_append]
    rw [alook_append]
    by_cases hlt : m₀ < N
    · rw [ih m₀ (fun a ha b hb => hinj a (by omega) b (by omega)) hlt]
    · have hm0 : m₀ = N := by omega
      rw [hm0]
      have hnone : alook ((List.range N).map (fun m => (pm m, g m))) (pm N) = none := by
        rw [alook_eq_none_iff]
        intro p hp hpk
        obtain ⟨a, ha, rfl⟩ := List.mem_map.mp hp
        rw [List.mem_range] at ha
        have : a = N := hinj a (by omega) N (by omega) hpk
        omega
      rw [hnone]
      simp [alook]

theorem alook_map_range_none {β : Type} (g : Nat → β) (pm : Nat → Int) {n N j : Nat}
    (hinj : ∀ a < n, ∀ b < n, pm a = pm b → a = b) (hN : N ≤ j) (hj : j < n) :
    alook ((List.range N).map (fun m => (pm m, g m))) (pm j) = none := by
  rw [alook_eq_none_iff]
  intro p hp hpk
  obtain ⟨a, ha, rfl⟩ := List.mem_map.mp hp
  rw [List.mem_range] at ha
  have : a = j := hinj a (by omega) j hj hpk
  omega

theorem except_ok_bind {α β : Type} (a : α) (f : α → Except PyErr β) :
    (Except.ok a >>= f) = f a := rfl

theorem addAll_cons_ok {st st' : MultiPartBuffer} {it : AddItem} {rest : List AddItem}
    {r : Option (List (List Char) × List Int × List Char)}
    (h : st.add it.nmea it.rawId it.timestamp it.now = .ok (r, st')) :
    addAll st (it :: rest) = (addAll st' rest).map (fun rr => (r :: rr.1, rr.2)) := by
  simp only [addAll]
  rw [h, except_ok_bind]
  dsimp only
  cases haa : addAll st' rest with
  | error e => rfl
  | ok pr => rfl

/-- C5: from a fresh reassembler, adding the `n ≥ 2` parts of one multi-part
group — same sequence id, channel and declared total `n`, with the distinct
part numbers `1..n` arriving in any order (`perm`), all within the timeout of
the first add — returns `None` for each of the first `n-1` calls, and the call
supplying the last missing part returns all `n` sentences (and raw ids)
assembled in ascending part-number order (`f i` is the index of the add that
carried part `i+1`), with the entry removed: the final buffer is empty and
`get_incomplete` reports nothing. -/
theorem c5_multipart_assembly
    (n : Nat) (hn : 2 ≤ n)
    (snts tstamp : Nat → List Char) (rid : Nat → Int) (now : Nat → ℚ)
    (l : Nat → List (List Char)) (perm : Nat → Int) (f : Nat → Nat)
    (seqId channel : List Char) (tmo : ℚ)
    (hs : ∀ j < n, splitComma (snts j) = l j)
    (hlen : ∀ j < n, ¬ (l j).length < 7)
    (hp : ∀ j < n, pyInt ((l j).getD 1 []) = some (n : Int))
    (hq : ∀ j < n, pyInt ((l j).getD 2 []) = some (perm j))
    (hid : ∀ j < n, (l j).getD 3 [] = seqId)
    (hch : ∀ j < n, (l j).getD 4 [] = channel)
    (hinj : ∀ a < n, ∀ b < n, perm a = perm b → a = b)
    (hf : ∀ i < n, f i < n ∧ perm (f i) = (i : Int) + 1)
    (hfresh : ∀ j < n, now j - now 0 ≤ tmo) :
    addAll (MultiPartBuffer.make tmo)
        ((List.range n).map (fun j => ⟨snts j, rid j, tstamp j, now j⟩))
      = .ok (List.replicate (n - 1) none ++
          [some ((List.range n).map (fun i => snts (f i)),
                 (List.range n).map (fun i => rid (f i)), tstamp (n - 1))],
        MultiPartBuffer.make tmo) ∧
    (MultiPartBuffer.make tmo).get_incomplete = [] := by
  refine ⟨?_, rfl⟩
  set key : RKey := (seqId, channel, (n : Int)) with hkey
  set E : Nat → List (Int × Frag) :=
    fun j => (List.range j).map (fun m => (perm m, (snts m, rid m, tstamp m))) with hE
  set RES : List (List Char) × List Int × List Char :=
    ((List.range n).map (fun i => snts (f i)),
     (List.range n).map (fun i => rid (f i)), tstamp (n - 1)) with hRES
  have hne1 : (n : Int) ≠ 1 := by
    intro hc
    have : n = 1 := by exact_mod_cast hc
    omega
  -- the completed entry assembles in ascending part order
  have hasm : MultiPartBuffer.assemble (E n) (n : Int)
      = some ((List.range n).map (fun i => (snts (f i), rid (f i), tstamp (f i)))) := by
    unfold MultiPartBuffer.assemble
    rw [Int.toNat_natCast]
    apply option_mapM_some
    intro i hi
    rw [List.mem_range] at hi
    obtain ⟨hfi, hpfi⟩ := hf i hi
    rw [← hpfi, hE]
    exact alook_map_range _ _ n (f i) hinj hfi
  -- one buffered step from the single-entry state
  have hcommon : ∀ j, 1 ≤ j → j < n →
      MultiPartBuffer.add ⟨[(key, E j)], [(key, now 0)], tmo⟩ (snts j) (rid j) (tstamp j) (now j)
        = if ((j + 1 : Nat) : Int) = (n : Int) then
            (match MultiPartBuffer.assemble (E (j + 1)) (n : Int) with
             | some frags =>
               .ok (some (frags.map (fun x => x.1), frags.map (fun x => x.2.1), tstamp j),
                 (⟨[], [], tmo⟩ : MultiPartBuffer))
             | none => .error .keyError)
          else .ok (none, ⟨[(key, E (j + 1))], [(key, now 0)], tmo⟩) := by
    intro j hj1 hjn
    rw [add_parsed _ _ _ _ _ (l j) (n : Int) (perm j) seqId channel (hs j hjn) (hlen j hjn)
      (hp j hjn) (hq j hjn) (hid j hjn) (hch j hjn) hne1]
    have hcl : MultiPartBuffer.cleanup ⟨[(key, E j)], [(key, now 0)], tmo⟩ (now j)
        = ⟨[(key, E j)], [(key, now 0)], tmo⟩ := by
      have hstale : ¬(now j - now 0 > tmo) := not_lt.mpr (hfresh j hjn)
      simp [MultiPartBuffer.cleanup, hstale]
    dsimp only
    rw [← hkey]
    rw [hcl]
    dsimp only
    have hbuf : alook [(key, E j)] key = some (E j) := by simp [alook]
    simp only [hbuf, Option.isSome_some, if_true, Option.getD_some]
    have hnone : alook (E j) (perm j) = none := by
      rw [hE]
      exact alook_map_range_none _ _ hinj (le_refl j) hjn
    have hentry : aset (perm j) (snts j, rid j, tstamp j) (E j) = E (j + 1) := by
      rw [aset_append_of_not_mem _ _ _ hnone, hE]
      simp [List.range_succ]
    rw [hentry]
    have hba : aset key (E (j + 1)) [(key, E j)] = [(key, E (j + 1))] := by simp [aset]
    rw [hba]
    have hlenE : (((E (j + 1)).length : Nat) : Int) = ((j + 1 : Nat) : Int) := by
      rw [hE]; simp
    rw [hlenE]
    by_cases hc : ((j + 1 : Nat) : Int) = (n : Int)
    · rw [if_pos hc, if_pos hc]
      have he1 : aerase key [(key, E (j + 1))] = [] := by simp [aerase]
      have he2 : aerase key [(key, (now 0 : ℚ))] = [] := by simp [aerase]
      rw [he1, he2]
    · rw [if_neg hc, if_neg hc]
  -- the first add creates the entry
  have hstep0 : MultiPartBuffer.add (MultiPartBuffer.make tmo) (snts 0) (rid 0) (tstamp 0) (now 0)
      = .ok (none, ⟨[(key, E 1)], [(key, now 0)], tmo⟩) := by
    rw [add_parsed _ _ _ _ _ (l 0) (n : Int) (perm 0) seqId channel (hs 0 (by omega))
      (hlen 0 (by omega)) (hp 0 (by omega)) (hq 0 (by omega)) (hid 0 (by omega))
      (hch 0 (by omega)) hne1]
    dsimp only
    rw [← hkey]
    rw [cleanup_make]
    have hb0 : alook (MultiPartBuffer.make tmo).buffer key = none := rfl
    rw [hb0]
    simp only [Option.isSome_none, Bool.false_eq_true, if_false]
    have hset : aset key ([] : List (Int × Frag)) (MultiPartBuffer.make tmo).buffer
        = [(key, [])] := rfl
    rw [hset]
    have hbuf : alook [(key, ([] : List (Int × Frag)))] key = some [] := by simp [alook]
    rw [hbuf]
    simp only [Option.getD_some]
    have hentry : aset (perm 0) (snts 0, rid 0, tstamp 0) ([] : List (Int × Frag)) = E 1 := by
      rw [hE]
      simp [aset, List.range_succ]
    rw [hentry]
    have hba : aset key (E 1) [(key, ([] : List (Int × Frag)))] = [(key, E 1)] := by
      simp [aset]
    rw [hba]
    have hlenE : (((E 1).length : Nat) : Int) = ((1 : Nat) : Int) := by rw [hE]; simp
    rw [hlenE]
    have hc1 : ((1 : Nat) : Int) ≠ (n : Int) := by
      intro hc
      have : 1 = n := by exact_mod_cast hc
      omega
    rw [if_neg hc1]
    rfl
  -- the tail of the run, from any single-entry state with j parts buffered
  have htail : ∀ k, ∀ j, 1 ≤ j → 1 ≤ k → j + k = n →
      addAll ⟨[(key, E j)], [(key, now 0)], tmo⟩
        ((List.range k).map (fun m =>
          ⟨snts (j + m), rid (j + m), tstamp (j + m), now (j + m)⟩))
      = .ok (List.replicate (k - 1) none ++ [some RES], (⟨[], [], tmo⟩ : MultiPartBuffer)) := by
    intro k
    induction k with
    | zero => intro j _ hk _; omega
    | succ k ih =>
      intro j hj hk hjk
      have hitems : (List.range (k + 1)).map
          (fun m => (⟨snts (j + m), rid (j + m), tstamp (j + m), now (j + m)⟩ : AddItem))
          = (⟨snts j, rid j, tstamp j, now j⟩ : AddItem) ::
            (List.range k).map (fun m =>
              (⟨snts (j + 1 + m), rid (j + 1 + m), tstamp (j + 1 + m), now (j + 1 + m)⟩ : AddItem)) := by
        rw [List.range_succ_eq_map, List.map_cons, List.map_map]
        simp only [Nat.add_zero]
        congr 1
        refine List.map_congr_left (fun m _ => ?_)
        simp only [Function.comp_apply]
        have harith : j + Nat.succ m = j + 1 + m := by omega
        rw [harith]
      rw [hitems]
      by_cases hk0 : k = 0
      · subst hk0
        have hj1 : j + 1 = n := by omega
        have hstep := hcommon j hj (by omega)
        rw [if_pos (by exact_mod_cast hj1)] at hstep
        rw [hj1, hasm] at hstep
        dsimp only at hstep
        simp only [List.map_map] at hstep
        rw [addAll_cons_ok hstep]
        have hjn1 : j = n - 1 := by omega
        rw [hjn1]
        simp [Except.map, addAll, hRES, Function.comp]
      · have hmid := hcommon j hj (by omega)
        rw [if_neg (by
          intro hc
          have : j + 1 = n := by exact_mod_cast hc
          omega)] at hmid
        rw [addAll_cons_ok hmid]
        rw [ih (j + 1) (by omega) (by omega) (by omega)]
        have hkk : k = (k - 1) + 1 := by omega
        rw [Except.map]
        dsimp only
        rw [show (k + 1 - 1 : Nat) = (k - 1) + 1 from by omega, List.replicate_succ]
        rfl
  -- assemble the whole run
  have hitems0 : (List.range n).map
      (fun j => (⟨snts j, rid j, tstamp j, now j⟩ : AddItem))
      = (⟨snts 0, rid 0, tstamp 0, now 0⟩ : AddItem) ::
        (List.range (n - 1)).map (fun m =>
          (⟨snts (1 + m), rid (1 + m), tstamp (1 + m), now (1 + m)⟩ : AddItem)) := by
    conv_lhs => rw [show n = (n - 1) + 1 from by omega]
    rw [List.range_succ_eq_map, List.map_cons, List.map_map]
    congr 1
    refine List.map_congr_left (fun m _ => ?_)
    simp only [Function.comp_apply]
    have harith : Nat.succ m = 1 + m := by omega
    rw [harith]
  rw [hitems0, addAll_cons_ok hstep0, htail (n - 1) 1 (le_refl 1) (by omega) (by omega)]
  rw [Except.map]
  dsimp only
  rw [show (n - 1 : Nat) = (n - 1 - 1) + 1 from by omega, List.replicate_succ]
  rfl

/-- C5 (witness): the theorem at a concrete 2-part group, parts arriving in
order at time 0 with timeout 0. -/
theorem c5_multipart_assembly_witness :
    (2 ≤ 2) ∧
    (addAll (MultiPartBuffer.make 0)
        ((List.range 2).map (fun j =>
          ⟨(fun j => if j = 0 then ("!AIVDM,2,1,7,A,p1,0*00").data
            else ("!AIVDM,2,2,7,A,p2,0*01").data) j,
           (fun (j : Nat) => (j : Int)) j,
           (fun (_ : Nat) => ("t").data) j,
           (fun (_ : Nat) => (0 : ℚ)) j⟩))
      = .ok (List.replicate (2 - 1) none ++
          [some ((List.range 2).map (fun i =>
              (fun j => if j = 0 then ("!AIVDM,2,1,7,A,p1,0*00").data
                else ("!AIVDM,2,2,7,A,p2,0*01").data) ((fun (i : Nat) => i) i)),
            (List.range 2).map (fun i =>
              (fun (j : Nat) => (j : Int)) ((fun (i : Nat) => i) i)),
            (fun (_ : Nat) => ("t").data) (2 - 1))],
        MultiPartBuffer.make 0) ∧
      (MultiPartBuffer.make 0).get_incomplete = []) :=
  ⟨by decide,
    c5_multipart_assembly 2 (by decide)
      (fun j => if j = 0 then ("!AIVDM,2,1,7,A,p1,0*00").data
        else ("!AIVDM,2,2,7,A,p2,0*01").data)
      (fun (_ : Nat) => ("t").data)
      (fun (j : Nat) => (j : Int))
      (fun (_ : Nat) => (0 : ℚ))
      (fun j => if j = 0 then
          [("!AIVDM").data, ("2").data, ("1").data, ("7").data, ("A").data, ("p1").data, ("0*00").data]
        else
          [("!AIVDM").data, ("2").data, ("2").data, ("7").data, ("A").data, ("p2").data, ("0*01").data])
      (fun (j : Nat) => (j : Int) + 1)
      (fun (i : Nat) => i)
      ("7").data ("A").data 0
      (by decide) (by decide) (by decide) (by decide) (by decide) (by decide)
      (by decide) (by decide)
      (fun j _ => by simp)⟩

/-! ## Claim theorems: C7 (dearmor/re-armor round trip) -/

theorem bitVal_foldl (l : List Nat) :
    ∀ a, l.foldl (fun acc b => 2 * acc + b) a = a * 2 ^ l.length + bitVal l := by
  induction l with
  | nil => intro a; simp [bitVal]
  | cons b bs ih =>
    intro a
    have hbs : bitVal (b :: bs) = b * 2 ^ bs.length + bitVal bs := by
      rw [bitVal, List.foldl_cons]
      simpa [bitVal] using ih b
    rw [List.foldl_cons, ih (2 * a + b), hbs]
    simp only [List.length_cons, pow_succ]
    ring

theorem bitVal_cons (b : Nat) (bs : List Nat) :
    bitVal (b :: bs) = b * 2 ^ bs.length + bitVal bs := by
  rw [bitVal, List.foldl_cons]
  simpa [bitVal] using bitVal_foldl bs b

theorem bitVal_lt : ∀ l : List Nat, (∀ b ∈ l, b < 2) → bitVal l < 2 ^ l.length := by
  intro l
  induction l with
  | nil => intro _; simp [bitVal]
  | cons b bs ih =>
    intro h
    have hb : b < 2 := h b (List.mem_cons_self b bs)
    have hbs := ih (fun x hx => h x (List.mem_cons_of_mem b hx))
    rw [bitVal_cons, List.length_cons, pow_succ]
    nlinarith

theorem bitVal_div_pow : ∀ l : List Nat, (∀ b ∈ l, b < 2) →
    ∀ j, j < l.length → bitVal l / 2 ^ (l.length - 1 - j) % 2 = l.getD j 0 := by
  intro l
  induction l with
  | nil => intro _ j hj; simp at hj
  | cons b bs ih =>
    intro h2 j hj
    have hb : b < 2 := h2 b (List.mem_cons_self b bs)
    have h2' : ∀ x ∈ bs, x < 2 := fun x hx => h2 x (List.mem_cons_of_mem b hx)
    have hlt := bitVal_lt bs h2'
    cases j with
    | zero =>
      have hex : (b :: bs).length - 1 - 0 = bs.length := by simp
      rw [bitVal_cons, hex, Nat.mul_comm b, Nat.mul_add_div (by positivity),
        Nat.div_eq_of_lt hlt, Nat.add_zero, Nat.mod_eq_of_lt hb]
      rfl
    | succ i =>
      have hi : i < bs.length := by simpa using Nat.lt_of_succ_lt_succ hj
      have hex : (b :: bs).length - 1 - (i + 1) = bs.length - 1 - i := by
        simp only [List.length_cons]
        omega
      rw [bitVal_cons, hex]
      have hsplit : b * 2 ^ bs.length = 2 ^ (bs.length - 1 - i) * (b * 2 ^ (i + 1)) := by
        rw [Nat.mul_comm (2 ^ (bs.length - 1 - i)), mul_assoc, ← pow_add]
        congr 2
        omega
      rw [hsplit, Nat.mul_add_div (by positivity),
        show b * 2 ^ (i + 1) = 2 * (b * 2 ^ i) from by ring, Nat.mul_add_mod]
      exact ih h2' i hi

theorem or_one_of_two_mul (a : Nat) : 2 * a ||| 1 = 2 * a + 1 := by
  apply Nat.eq_of_testBit_eq
  intro i
  rw [Nat.testBit_or]
  cases i with
  | zero =>
    simp only [Nat.testBit_to_div_mod, pow_zero, Nat.div_one]
    simp [Nat.mul_add_mod]
  | succ i =>
    simp only [Nat.testBit_to_div_mod]
    have h1 : (1 : Nat) / 2 ^ (i + 1) = 0 :=
      Nat.div_eq_of_lt (Nat.one_lt_two_pow (by omega))
    have h2a : 2 * a / 2 ^ (i + 1) = a / 2 ^ i := by
      rw [pow_succ, Nat.mul_comm (2 ^ i) 2, ← Nat.div_div_eq_div_mul,
        Nat.mul_div_cancel_left a (by norm_num)]
    have h3 : (2 * a + 1) / 2 ^ (i + 1) = a / 2 ^ i := by
      rw [pow_succ, Nat.mul_comm (2 ^ i) 2, ← Nat.div_div_eq_div_mul,
        Nat.mul_add_div (by norm_num)]
      norm_num
    rw [h1, h2a, h3]
    simp

theorem shiftor_step (a b : Nat) (hb : b < 2) : (a <<< 1) ||| b = 2 * a + b := by
  rw [Nat.shiftLeft_eq, pow_one, Nat.mul_comm a 2]
  interval_cases b
  · simp
  · exact or_one_of_two_mul a

theorem foldl_shiftor : ∀ l : List Nat, (∀ b ∈ l, b < 2) →
    ∀ a, l.foldl (fun acc bit => (acc <<< 1) ||| bit) a = l.foldl (fun acc b => 2 * acc + b) a := by
  intro l
  induction l with
  | nil => intro _ a; rfl
  | cons b bs ih =>
    intro h a
    rw [List.foldl_cons, List.foldl_cons,
      shiftor_step a b (h b (List.mem_cons_self b bs))]
    exact ih (fun x hx => h x (List.mem_cons_of_mem b hx)) (2 * a + b)

theorem bitAt_div_mod (data : List Nat) (p : Nat) :
    bitAt data p = data.getD (p / 8) 0 / 2 ^ (7 - p % 8) % 2 := by
  unfold bitAt
  rw [show (1 <<< (7 - p % 8)) = 2 ^ (7 - p % 8) from Nat.one_shiftLeft _,
    Nat.and_two_pow]
  cases htb : (data.getD (p / 8) 0).testBit (7 - p % 8) with
  | false =>
    have h0 : data.getD (p / 8) 0 / 2 ^ (7 - p % 8) % 2 ≠ 1 := by
      rw [Nat.testBit_to_div_mod] at htb
      simpa using htb
    have h2 : data.getD (p / 8) 0 / 2 ^ (7 - p % 8) % 2 = 0 := by omega
    rw [h2]
    simp
  | true =>
    have h1 : data.getD (p / 8) 0 / 2 ^ (7 - p % 8) % 2 = 1 := by
      rw [Nat.testBit_to_div_mod] at htb
      simpa using htb
    rw [h1, if_pos]
    have hpos : (0 : Nat) < 2 ^ (7 - p % 8) := by positivity
    simp only [Bool.toNat_true, one_mul]
    omega

theorem getD_drop (l : List Nat) (k i : Nat) : (l.drop k).getD i 0 = l.getD (k + i) 0 := by
  simp [List.getD_eq_getElem?_getD, List.getElem?_drop]

/-- Every bit of the original bit list survives byte packing at the same
absolute position. -/
theorem bitAt_packBits : ∀ (N : Nat) (bs : List Nat), bs.length ≤ N →
    (∀ b ∈ bs, b < 2) → ∀ p, p < bs.length → bitAt (packBits bs) p = bs.getD p 0 := by
  intro N
  induction N with
  | zero => intro bs hlen _ p hp; omega
  | succ N ih =>
    intro bs hlen h2 p hp
    match bs with
    | [] => simp at hp
    | b :: rest =>
      rw [packBits]
      set chunk := b :: rest.take 7 with hchunk
      have hchunk_take : chunk = (b :: rest).take 8 := by
        rw [hchunk, List.take_succ_cons]
      have hLle : chunk.length ≤ 8 := by
        rw [hchunk_take]
        exact (List.length_take 8 (b :: rest)).le.trans (min_le_left _ _)
      have hLpos : 0 < chunk.length := by rw [hchunk]; simp
      have hLmin : chunk.length = min 8 (b :: rest).length := by
        rw [hchunk_take, List.length_take]
      have hchunk2 : ∀ x ∈ chunk, x < 2 := by
        intro x hx
        rw [hchunk_take] at hx
        exact h2 x (List.mem_of_mem_take hx)
      have hbyte : chunk.foldl (fun acc bit => (acc <<< 1) ||| bit) 0 = bitVal chunk := by
        rw [foldl_shiftor chunk hchunk2 0]
        rfl
      by_cases hp8 : p < 8
      · have hpL : p < chunk.length := by omega
        rw [bitAt_div_mod]
        have hdiv : p / 8 = 0 := Nat.div_eq_of_lt hp8
        have hmod : p % 8 = p := Nat.mod_eq_of_lt hp8
        rw [hdiv, hmod]
        simp only [List.getD_cons_zero]
        rw [hbyte, Nat.shiftLeft_eq]
        have hsplit : 7 - p = (8 - chunk.length) + (chunk.length - 1 - p) := by omega
        rw [hsplit, pow_add, ← Nat.div_div_eq_div_mul,
          Nat.mul_div_cancel _ (by positivity)]
        rw [bitVal_div_pow chunk hchunk2 p hpL]
        rw [hchunk_take, List.getD_eq_getElem?_getD, List.getElem?_take,
          if_pos hp8, ← List.getD_eq_getElem?_getD]
      · have hlen' : rest.length ≤ N := by
          simp only [List.length_cons] at hlen
          omega
        have hp' : p ≤ rest.length := by
          simp only [List.length_cons] at hp
          omega
        have hrec := ih (rest.drop 7) (by simp only [List.length_drop]; omega)
          (fun x hx => h2 x (List.mem_cons_of_mem b (List.mem_of_mem_drop hx)))
          (p - 8) (by simp only [List.length_drop]; omega)
        have hsame : bitAt ((chunk.foldl (fun acc bit => (acc <<< 1) ||| bit) 0 <<<
            (8 - chunk.length)) :: packBits (rest.drop 7)) p
            = bitAt (packBits (rest.drop 7)) (p - 8) := by
          rw [bitAt_div_mod, bitAt_div_mod]
          have hd : p / 8 = (p - 8) / 8 + 1 := by omega
          have hm : p % 8 = (p - 8) % 8 := by omega
          rw [hd, hm]
          rfl
        rw [hsame, hrec]
        have hgetD : (b :: rest).getD p 0 = (rest.drop 7).getD (p - 8) 0 := by
          rw [getD_drop]
          have h78 : 7 + (p - 8) = p - 1 := by omega
          rw [h78]
          cases p with
          | zero => exact absurd (by norm_num : (0 : Nat) < 8) hp8
          | succ n => simp [List.getD_cons_succ]
        rw [hgetD]

theorem int_bit_toNat (n m : Nat) :
    (((n : Int).fdiv ((2 : Int) ^ m)) % 2).toNat = n / 2 ^ m % 2 := by
  rw [Int.fdiv_eq_ediv _ (by positivity)]
  have hstep : ((n : Int) / (2 : Int) ^ m) % 2 = ((n / 2 ^ m % 2 : Nat) : Int) := by
    push_cast
    rfl
  rw [hstep]
  exact Int.toNat_natCast _

theorem armorBits_eq (c : Char) (hc : isArmorChar c) :
    armorBits c = (List.range 6).map (fun k => armorNat c / 2 ^ (5 - k) % 2) := by
  have hval : (if ((c.toNat : Int) - 48) > 40 then ((c.toNat : Int) - 48) - 8
      else (c.toNat : Int) - 48) = ((armorNat c : Nat) : Int) := by
    rcases hc with ⟨h1, h2⟩ | ⟨h1, h2⟩
    · rw [if_neg (by omega)]
      rw [show armorNat c = c.toNat - 48 from by simp only [armorNat]; rw [if_pos h2]]
      omega
    · rw [if_pos (by omega)]
      rw [show armorNat c = c.toNat - 56 from by simp only [armorNat]; rw [if_neg (by omega)]]
      omega
  unfold armorBits
  dsimp only
  rw [hval]
  exact List.map_congr_left (fun k _ => int_bit_toNat (armorNat c) (5 - k))

theorem armorNat_lt (c : Char) (hc : isArmorChar c) : armorNat c < 64 := by
  simp only [armorNat]
  rcases hc with ⟨h1, h2⟩ | ⟨h1, h2⟩ <;> split <;> omega

theorem armorNat_inv (c : Char) (hc : isArmorChar c) :
    (if armorNat c < 40 then Char.ofNat (armorNat c + 48)
      else Char.ofNat (armorNat c + 56)) = c := by
  rcases hc with ⟨h1, h2⟩ | ⟨h1, h2⟩
  · have han : armorNat c = c.toNat - 48 := by simp only [armorNat]; rw [if_pos h2]
    rw [han, if_pos (by omega), show c.toNat - 48 + 48 = c.toNat from by omega]
    exact Char.ofNat_toNat c
  · have han : armorNat c = c.toNat - 56 := by simp only [armorNat]; rw [if_neg (by omega)]
    rw [han, if_neg (by omega), show c.toNat - 56 + 56 = c.toNat from by omega]
    exact Char.ofNat_toNat c

theorem armorBits_lt_two (c : Char) : ∀ b ∈ armorBits c, b < 2 := by
  have key : ∀ x : Int, (x % 2).toNat < 2 := by
    intro x
    have h1 : (0 : Int) ≤ x % 2 := Int.emod_nonneg x (by norm_num)
    have h2 : x % 2 < 2 := Int.emod_lt_of_pos x (by norm_num)
    omega
  intro b hb
  simp only [armorBits, List.mem_map] at hb
  obtain ⟨k, hk, rfl⟩ := hb
  exact key _

theorem length_armorBits (c : Char) : (armorBits c).length = 6 := by
  simp [armorBits]

theorem length_flatMap_armorBits : ∀ l : List Char, (l.flatMap armorBits).length = 6 * l.length := by
  intro l
  induction l with
  | nil => rfl
  | cons c cs ih =>
    rw [List.flatMap_cons, List.length_append, ih, List.length_cons, length_armorBits]
    omega

theorem flatMap_armorBits_getD : ∀ (l : List Char) (g i : Nat), g < l.length → i < 6 →
    (l.flatMap armorBits).getD (6 * g + i) 0 =
      (armorBits (l.getD g (Char.ofNat 0))).getD i 0 := by
  intro l
  induction l with
  | nil => intro g i hg _; simp at hg
  | cons c cs ih =>
    intro g i hg hi
    rw [List.flatMap_cons]
    cases g with
    | zero =>
      rw [show 6 * 0 + i = i from by omega]
      rw [List.getD_eq_getElem?_getD, List.getElem?_append,
        if_pos (by rw [length_armorBits]; exact hi)]
      rw [← List.getD_eq_getElem?_getD]
      rfl
    | succ g' =>
      rw [List.getD_eq_getElem?_getD, List.getElem?_append,
        if_neg (by rw [length_armorBits]; omega)]
      rw [length_armorBits, show 6 * (g' + 1) + i - 6 = 6 * g' + i from by omega,
        ← List.getD_eq_getElem?_getD]
      rw [ih g' i (by simpa using Nat.lt_of_succ_lt_succ hg) hi]
      rfl

theorem getD_map_range (n : Nat) (f : Nat → Nat) (i : Nat) (h : i < n) :
    ((List.range n).map f).getD i 0 = f i := by
  rw [List.getD_eq_getElem _ _ (by simpa using h), List.getElem_map, List.getElem_range]

theorem bitVal_digits : ∀ v < 64,
    bitVal ((List.range 6).map (fun k => v / 2 ^ (5 - k) % 2)) = v := by decide

/-- C7: dearmoring is invertible for zero pad bits — for every payload string
over the valid AIS armor alphabet, dearmoring it with `pad = 0`
(`bits_from_ais_payload`) and then re-armoring the resulting bytes (taking
successive 6-bit groups MSB-first and applying the inverse alphabet mapping
`v < 40 ↦ chr(v + 48)`, `v ≥ 40 ↦ chr(v + 56)`) reproduces the original
string. -/
theorem c7_rearmor_roundtrip (p : String) (hc : ∀ c ∈ p.data, isArmorChar c) :
    rearmor (bits_from_ais_payload p 0) p.length = p := by
  have hbfz : bits_from_ais_payload p 0 = packBits (p.data.flatMap armorBits) := by
    simp [bits_from_ais_payload]
  have hlenbits : (p.data.flatMap armorBits).length = 6 * p.data.length :=
    length_flatMap_armorBits p.data
  have hlt2 : ∀ b ∈ p.data.flatMap armorBits, b < 2 := by
    intro b hb
    obtain ⟨c, hcmem, hbmem⟩ := List.mem_flatMap.mp hb
    exact armorBits_lt_two c b hbmem
  rw [hbfz, rearmor]
  conv_rhs => rw [show p = String.mk p.data from rfl]
  congr 1
  apply List.ext_getElem
  · simp only [List.length_map, List.length_range]
    rfl
  intro g hg1 hg2
  simp only [List.getElem_map, List.getElem_range]
  have hcg : isArmorChar (p.data[g]) := hc _ (List.getElem_mem hg2)
  have hgetDc : p.data.getD g (Char.ofNat 0) = p.data[g] :=
    List.getD_eq_getElem _ _ hg2
  have hmapeq : (List.range 6).map
        (fun i => bitAt (packBits (p.data.flatMap armorBits)) (6 * g + i))
      = (List.range 6).map (fun k => armorNat (p.data[g]) / 2 ^ (5 - k) % 2) := by
    refine List.map_congr_left (fun i hi => ?_)
    have hi6 : i < 6 := List.mem_range.mp hi
    rw [bitAt_packBits (p.data.flatMap armorBits).length (p.data.flatMap armorBits)
      le_rfl hlt2 (6 * g + i) (by rw [hlenbits]; omega)]
    rw [flatMap_armorBits_getD p.data g i hg2 hi6, hgetDc,
      armorBits_eq (p.data[g]) hcg, getD_map_range 6 _ i hi6]
  rw [hmapeq, bitVal_digits (armorNat (p.data[g])) (armorNat_lt (p.data[g]) hcg)]
  exact armorNat_inv (p.data[g]) hcg

theorem c7_rearmor_roundtrip_witness :
    (∀ c ∈ ("177KQJ5000G?tO").data, isArmorChar c) ∧
      rearmor (bits_from_ais_payload ("177KQJ5000G?tO") 0) ("177KQJ5000G?tO").length
        = ("177KQJ5000G?tO") :=
  ⟨by decide, c7_rearmor_roundtrip ("177KQJ5000G?tO") (by decide)⟩

end AisSpec
